/-
Verification of the settings-reconciliation and credential-cache core of the
terraform-provider-supabase repository, as a shallow embedding in Lean 4.

The embedding follows the Go source closely:

* `internal/provider/storage_buckets_data_source.go` — the `TokenManager`
  (credential cache and exchanger): `GetServiceRoleToken`,
  `fetchProjectTokens`, `InvalidateProjectTokens`.
* `internal/provider/settings_resource.go` — the settings reconciliation
  engine: the per-sub-domain read/update helpers and the aggregate
  Create/Update dispatch.  (`internal/provider/settings/auth_mfa.go` contains a
  byte-for-byte identical copy of the network read/update helpers; the model
  below covers both.)
* `internal/provider/settings/auth.go` — the settings module's divergent
  `ReadAuthConfig` (no 404/406 special case), modelled separately as
  `settingsReadAuthConfig`.

Terraform framework values (`types.String`, `types.Int64`, `types.Bool`) are
modelled as `Option` — `none` is the null ("never declared") state, `some v` a
known value.  None of the modelled code paths call `IsUnknown`, so the
two-state model is exact for them.  Go nil-able slices (`[]types.String`)
become `Option (List String)`: `none` for a nil slice, `some []` for an empty
one.  HTTP interactions are made explicit: each operation takes the remote
response as a parameter (`Except String resp`, where `.error` is a transport
failure) and returns the request body it would send together with its
diagnostics, so that request-shaping properties are stateable.
-/
import Mathlib

namespace Supabase

/-! ## Diagnostics

`diag.Diagnostics` from the terraform plugin framework; every diagnostic the
modelled code produces is an error diagnostic, so `HasError` is nonemptiness. -/

structure Diagnostic where
  summary : String
  detail : String
deriving Repr, DecidableEq

/-! ## Credential cache and exchanger (`TokenManager`)

From `storage_buckets_data_source.go`.  Time is an abstract `Nat` clock;
`time.Hour` becomes the constant `freshnessWindow` (seconds). -/

structure ApiKeyInfo where
  name : String
  apiKey : String
deriving Repr, DecidableEq

structure ProjectTokens where
  serviceRoleKey : String
  anonKey : String
  cachedAt : Nat
deriving Repr, DecidableEq

/-- Parameters of `V1GetProjectApiKeysWithResponse`; the source always sets
`Reveal: true`. -/
structure ApiKeysParams where
  projectRef : String
  reveal : Bool
deriving Repr, DecidableEq

/-- The key-listing request issued by `fetchProjectTokens`:
`api.V1GetProjectApiKeysParams{Reveal: true}`. -/
def keysRequestParams (projectRef : String) : ApiKeysParams :=
  { projectRef := projectRef, reveal := true }

/-- The key-listing response: status code, raw body, and the parsed JSON body
(`JSON200`), which the generated client populates only on status 200. -/
structure KeysResponse where
  statusCode : Nat
  body : String
  json200 : Option (List ApiKeyInfo)
deriving Repr, DecidableEq

/-- One step of the scanning loop of `fetchProjectTokens`: record the entry's
secret when its name is `service_role` or `anon`. -/
def scanKeyStep (t : ProjectTokens) (k : ApiKeyInfo) : ProjectTokens :=
  if k.name == "service_role" then { t with serviceRoleKey := k.apiKey }
  else if k.name == "anon" then { t with anonKey := k.apiKey }
  else t

/-- The scanning loop of `fetchProjectTokens`: walks the key list and records
the `service_role` and `anon` secrets (a later entry with the same name
overwrites an earlier one, as in the Go loop). -/
def scanKeys (init : ProjectTokens) (keys : List ApiKeyInfo) : ProjectTokens :=
  keys.foldl scanKeyStep init

/-- `TokenManager.fetchProjectTokens`.  `remote` is the outcome of the
key-listing call: `.error e` a transport failure, `.ok resp` a response. -/
def fetchProjectTokens (now : Nat) (projectRef : String)
    (remote : Except String KeysResponse) : Except String ProjectTokens :=
  match remote with
  | .error e => .error ("API request failed: " ++ e)
  | .ok resp =>
    if resp.statusCode ≠ 200 then
      .error ("API returned status " ++ toString resp.statusCode ++ ": " ++ resp.body)
    else
      match resp.json200 with
      | none => .error ("no API keys found for project " ++ projectRef)
      | some keys =>
        if keys.length = 0 then
          .error ("no API keys found for project " ++ projectRef)
        else
          if (scanKeys { serviceRoleKey := "", anonKey := "", cachedAt := now } keys).serviceRoleKey == "" then
            .error ("service_role key not found for project " ++ projectRef)
          else
            .ok (scanKeys { serviceRoleKey := "", anonKey := "", cachedAt := now } keys)

/-- The cache map `projectTokens map[string]*ProjectTokens` of the
`TokenManager`, as a function from project identifiers to cached entries. -/
structure TokenManagerState where
  projectTokens : String → Option ProjectTokens

/-- `time.Hour` expressed in the abstract clock's units. -/
def freshnessWindow : Nat := 3600

def cacheInsert (tm : TokenManagerState) (projectRef : String)
    (tokens : ProjectTokens) : TokenManagerState :=
  ⟨fun q => if q = projectRef then some tokens else tm.projectTokens q⟩

/-- Result of one `GetServiceRoleToken` call: the returned value or error, the
cache state afterwards, and whether the exchanger (the key-listing endpoint)
was invoked. -/
structure GetResult where
  result : Except String String
  state : TokenManagerState
  exchanged : Bool

/-- The miss/stale path of `GetServiceRoleToken`: delegate to
`fetchProjectTokens`, cache the result on success. -/
def fetchAndCache (now : Nat) (projectRef : String)
    (remote : Except String KeysResponse) (tm : TokenManagerState) : GetResult :=
  match fetchProjectTokens now projectRef remote with
  | .error e =>
    { result := .error ("failed to fetch project tokens: " ++ e)
      state := tm
      exchanged := true }
  | .ok tokens =>
    { result := .ok tokens.serviceRoleKey
      state := cacheInsert tm projectRef tokens
      exchanged := true }

/-- `TokenManager.GetServiceRoleToken`: serve the cached entry when it exists,
is younger than the freshness window, and its service-role secret is
non-empty; otherwise fetch fresh tokens and cache them. -/
def GetServiceRoleToken (now : Nat) (projectRef : String)
    (remote : Except String KeysResponse) (tm : TokenManagerState) : GetResult :=
  match tm.projectTokens projectRef with
  | some tokens =>
    if now - tokens.cachedAt < freshnessWindow ∧ tokens.serviceRoleKey ≠ "" then
      { result := .ok tokens.serviceRoleKey, state := tm, exchanged := false }
    else
      fetchAndCache now projectRef remote tm
  | none => fetchAndCache now projectRef remote tm

/-- `TokenManager.InvalidateProjectTokens`: unconditionally evict the entry. -/
def InvalidateProjectTokens (projectRef : String)
    (tm : TokenManagerState) : TokenManagerState :=
  ⟨fun q => if q = projectRef then none else tm.projectTokens q⟩

/-! ## Settings resource data model

From `settings_resource.go`.  Each `types.X` field becomes `Option X`
(`none` = null); `[]types.String` becomes `Option (List String)`
(`none` = nil slice, `some []` = declared-empty slice). -/

structure DatabaseConfig where
  effectiveCacheSize : Option String
  logicalDecodingWorkMem : Option String
  maintenanceWorkMem : Option String
  maxConnections : Option Int
  maxLocksPerTransaction : Option Int
  maxParallelMaintenanceWorkers : Option Int
  maxParallelWorkers : Option Int
  maxParallelWorkersPerGather : Option Int
  maxReplicationSlots : Option Int
  maxSlotWalKeepSize : Option String
  maxStandbyArchiveDelay : Option String
  maxStandbyStreamingDelay : Option String
  maxWalSenders : Option Int
  maxWalSize : Option String
  maxWorkerProcesses : Option Int
  restartDatabase : Option Bool
  sessionReplicationRole : Option String
  sharedBuffers : Option String
  statementTimeout : Option String
  trackCommitTimestamp : Option Bool
  walKeepSize : Option String
  walSenderTimeout : Option String
  workMem : Option String
deriving Repr, DecidableEq

def emptyDatabaseConfig : DatabaseConfig :=
  { effectiveCacheSize := none, logicalDecodingWorkMem := none
    maintenanceWorkMem := none, maxConnections := none
    maxLocksPerTransaction := none, maxParallelMaintenanceWorkers := none
    maxParallelWorkers := none, maxParallelWorkersPerGather := none
    maxReplicationSlots := none, maxSlotWalKeepSize := none
    maxStandbyArchiveDelay := none, maxStandbyStreamingDelay := none
    maxWalSenders := none, maxWalSize := none, maxWorkerProcesses := none
    restartDatabase := none, sessionReplicationRole := none
    sharedBuffers := none, statementTimeout := none
    trackCommitTimestamp := none, walKeepSize := none
    walSenderTimeout := none, workMem := none }

structure PoolerConfig where
  defaultPoolSize : Option Int
deriving Repr, DecidableEq

structure NetworkConfig where
  dbAllowedCidrs : Option (List String)
  dbAllowedCidrsV6 : Option (List String)
deriving Repr, DecidableEq

def emptyNetworkConfig : NetworkConfig :=
  { dbAllowedCidrs := none, dbAllowedCidrsV6 := none }

structure StorageFeatures where
  imageTransformation : Option Bool
deriving Repr, DecidableEq

structure StorageConfig where
  fileSizeLimit : Option Int
  features : Option StorageFeatures
deriving Repr, DecidableEq

structure ExternalProviderConfig where
  enabled : Option Bool
  clientId : Option String
  secret : Option String
  url : Option String
  additionalClientIds : Option String
deriving Repr, DecidableEq

def emptyExternalProviderConfig : ExternalProviderConfig :=
  { enabled := none, clientId := none, secret := none, url := none
    additionalClientIds := none }

structure AuthConfig where
  apiMaxRequestDuration : Option Int
  dbMaxPoolSize : Option Int
  disableSignup : Option Bool
  externalAnonymousUsersEnabled : Option Bool
  externalEmailEnabled : Option Bool
  externalApple : Option ExternalProviderConfig
  externalAzure : Option ExternalProviderConfig
  externalBitbucket : Option ExternalProviderConfig
  externalDiscord : Option ExternalProviderConfig
  externalFacebook : Option ExternalProviderConfig
  externalFigma : Option ExternalProviderConfig
  externalGithub : Option ExternalProviderConfig
  externalGitlab : Option ExternalProviderConfig
  externalGoogle : Option ExternalProviderConfig
  externalKakao : Option ExternalProviderConfig
  externalKeycloak : Option ExternalProviderConfig
  externalLinkedinOidc : Option ExternalProviderConfig
  externalNotion : Option ExternalProviderConfig
  externalSlack : Option ExternalProviderConfig
  externalSlackOidc : Option ExternalProviderConfig
  externalSpotify : Option ExternalProviderConfig
  externalTwitch : Option ExternalProviderConfig
  externalTwitter : Option ExternalProviderConfig
  externalWorkos : Option ExternalProviderConfig
  externalZoom : Option ExternalProviderConfig
  smsProvider : Option String
  smsOtpLength : Option Int
  mailerOtpExp : Option Int
  smtpHost : Option String
  smtpPort : Option Int
  smtpUser : Option String
  smtpPass : Option String
  securityCaptchaEnabled : Option Bool
  securityCaptchaProvider : Option String
  securityCaptchaSecret : Option String
  siteUrl : Option String
  mfaPhoneOtpLength : Option Int
deriving Repr, DecidableEq

def emptyAuthConfig : AuthConfig :=
  { apiMaxRequestDuration := none, dbMaxPoolSize := none, disableSignup := none
    externalAnonymousUsersEnabled := none, externalEmailEnabled := none
    externalApple := none, externalAzure := none, externalBitbucket := none
    externalDiscord := none, externalFacebook := none, externalFigma := none
    externalGithub := none, externalGitlab := none, externalGoogle := none
    externalKakao := none, externalKeycloak := none, externalLinkedinOidc := none
    externalNotion := none, externalSlack := none, externalSlackOidc := none
    externalSpotify := none, externalTwitch := none, externalTwitter := none
    externalWorkos := none, externalZoom := none
    smsProvider := none, smsOtpLength := none, mailerOtpExp := none
    smtpHost := none, smtpPort := none, smtpUser := none, smtpPass := none
    securityCaptchaEnabled := none, securityCaptchaProvider := none
    securityCaptchaSecret := none, siteUrl := none, mfaPhoneOtpLength := none }

structure ApiConfig where
  dbExtraSearchPath : Option String
  dbPool : Option Int
  dbSchema : Option String
  maxRows : Option Int
deriving Repr, DecidableEq

def emptyApiConfig : ApiConfig :=
  { dbExtraSearchPath := none, dbPool := none, dbSchema := none, maxRows := none }

structure SettingsResourceModel where
  projectRef : Option String
  database : Option DatabaseConfig
  pooler : Option PoolerConfig
  network : Option NetworkConfig
  storage : Option StorageConfig
  auth : Option AuthConfig
  api : Option ApiConfig
  id : Option String
deriving Repr, DecidableEq

/-! ## Remote responses

A generated-client response: status code, raw body, and the JSON body parsed
on status 200 (`JSON200`), respectively 201 (`JSON201`) for the network
update endpoint. -/

structure HttpResp (α : Type) where
  statusCode : Nat
  body : String
  json200 : Option α
deriving Repr, DecidableEq

structure Http201Resp (α : Type) where
  statusCode : Nat
  body : String
  json201 : Option α
deriving Repr, DecidableEq

/-- JSON body of `V1GetPostgrestServiceConfig`. -/
structure PostgrestConfigResponse where
  dbExtraSearchPath : String
  dbPool : Option Int
  dbSchema : String
  maxRows : Int
deriving Repr, DecidableEq

/-- JSON body of `V1GetPostgresConfig` (the fields the read helper uses). -/
structure PostgresConfigResponse where
  effectiveCacheSize : Option String
  logicalDecodingWorkMem : Option String
  maintenanceWorkMem : Option String
  maxConnections : Option Int
  statementTimeout : Option String
  sharedBuffers : Option String
  workMem : Option String
deriving Repr, DecidableEq

/-- `Config` object inside the `V1GetNetworkRestrictions` JSON body. -/
structure NetworkRestrictionsConfigJson where
  dbAllowedCidrs : Option (List String)
  dbAllowedCidrsV6 : Option (List String)
deriving Repr, DecidableEq

structure NetworkRestrictionsResponseJson where
  config : NetworkRestrictionsConfigJson
deriving Repr, DecidableEq

/-- JSON body of `V1GetAuthServiceConfig` (the fields `readAuthConfig` uses).
`smtpPort` is a string in the wire format; `mailerOtpExp`,
`mfaPhoneOtpLength` and `smsOtpLength` are non-pointer (always present). -/
structure AuthConfigResponse where
  apiMaxRequestDuration : Option Int
  dbMaxPoolSize : Option Int
  disableSignup : Option Bool
  externalAnonymousUsersEnabled : Option Bool
  externalEmailEnabled : Option Bool
  siteUrl : Option String
  mailerOtpExp : Int
  mfaPhoneOtpLength : Int
  smsOtpLength : Int
  smtpHost : Option String
  smtpPort : Option String
  smtpUser : Option String
  externalAppleEnabled : Option Bool
  externalAppleClientId : Option String
  externalAppleAdditionalClientIds : Option String
  externalAzureEnabled : Option Bool
  externalAzureClientId : Option String
  externalAzureUrl : Option String
  externalBitbucketEnabled : Option Bool
  externalBitbucketClientId : Option String
  externalDiscordEnabled : Option Bool
  externalDiscordClientId : Option String
  externalFacebookEnabled : Option Bool
  externalFacebookClientId : Option String
  externalFigmaEnabled : Option Bool
  externalFigmaClientId : Option String
  externalGithubEnabled : Option Bool
  externalGithubClientId : Option String
  externalGitlabEnabled : Option Bool
  externalGitlabClientId : Option String
  externalGitlabUrl : Option String
  externalGoogleEnabled : Option Bool
  externalGoogleClientId : Option String
  externalGoogleAdditionalClientIds : Option String
  externalKakaoEnabled : Option Bool
  externalKakaoClientId : Option String
  externalKeycloakEnabled : Option Bool
  externalKeycloakClientId : Option String
  externalKeycloakUrl : Option String
  externalLinkedinOidcEnabled : Option Bool
  externalLinkedinOidcClientId : Option String
  externalNotionEnabled : Option Bool
  externalNotionClientId : Option String
  externalSlackEnabled : Option Bool
  externalSlackClientId : Option String
  externalSlackOidcEnabled : Option Bool
  externalSlackOidcClientId : Option String
  externalSpotifyEnabled : Option Bool
  externalSpotifyClientId : Option String
  externalTwitchEnabled : Option Bool
  externalTwitchClientId : Option String
  externalTwitterEnabled : Option Bool
  externalTwitterClientId : Option String
  externalWorkosEnabled : Option Bool
  externalWorkosClientId : Option String
  externalWorkosUrl : Option String
  externalZoomEnabled : Option Bool
  externalZoomClientId : Option String
deriving Repr, DecidableEq

/-! ## Sub-domain read helpers (`settings_resource.go`)

Each read helper takes the remote response as a parameter and returns the
updated model together with its diagnostics.  `.error e` models a transport
failure of the underlying HTTP call. -/

/-- `strconv.ParseInt(s, 10, 64)` with the source's fallback: 0 on failure. -/
def parseInt (s : String) : Int :=
  (s.toInt?).getD 0

/-- `SettingsResource.readApiConfig`. -/
def readApiConfig : Except String (HttpResp PostgrestConfigResponse) →
    SettingsResourceModel → SettingsResourceModel × List Diagnostic
  | .error e, state =>
    (state, [⟨"Client Error", "Unable to read api settings: " ++ e⟩])
  | .ok httpResp, state =>
    if httpResp.statusCode = 404 ∨ httpResp.statusCode = 406 then
      (state, [])
    else
      match httpResp.json200 with
      | none =>
        (state, [⟨"Client Error", "Unable to read api settings, got status "
          ++ toString httpResp.statusCode ++ ": " ++ httpResp.body⟩])
      | some js =>
        let apiCfg := state.api.getD emptyApiConfig
        let apiCfg :=
          { apiCfg with
            dbExtraSearchPath := some js.dbExtraSearchPath
            dbSchema := some js.dbSchema
            dbPool := match js.dbPool with
              | some v => some v
              | none => apiCfg.dbPool
            maxRows := some js.maxRows }
        ({ state with api := some apiCfg }, [])

/-- `SettingsResource.readDatabaseConfig`. -/
def readDatabaseConfig : Except String (HttpResp PostgresConfigResponse) →
    SettingsResourceModel → SettingsResourceModel × List Diagnostic
  | .error e, state =>
    (state, [⟨"Client Error", "Unable to read database settings: " ++ e⟩])
  | .ok httpResp, state =>
    if httpResp.statusCode = 404 ∨ httpResp.statusCode = 406 then
      (state, [])
    else
      match httpResp.json200 with
      | none =>
        (state, [⟨"Client Error", "Unable to read database settings, got status "
          ++ toString httpResp.statusCode ++ ": " ++ httpResp.body⟩])
      | some r =>
        let db := state.database.getD emptyDatabaseConfig
        let db :=
          { db with
            effectiveCacheSize := match r.effectiveCacheSize with
              | some v => some v
              | none => db.effectiveCacheSize
            logicalDecodingWorkMem := match r.logicalDecodingWorkMem with
              | some v => some v
              | none => db.logicalDecodingWorkMem
            maintenanceWorkMem := match r.maintenanceWorkMem with
              | some v => some v
              | none => db.maintenanceWorkMem
            maxConnections := match r.maxConnections with
              | some v => some v
              | none => db.maxConnections
            statementTimeout := match r.statementTimeout with
              | some v => some v
              | none => db.statementTimeout
            sharedBuffers := match r.sharedBuffers with
              | some v => some v
              | none => db.sharedBuffers
            workMem := match r.workMem with
              | some v => some v
              | none => db.workMem }
        ({ state with database := some db }, [])

/-- `SettingsResource.readNetworkConfig` (the identical
`settings.ReadNetworkConfig` in `settings/auth_mfa.go` is covered by the same
model): after status/body checks, each CIDR list in state is rebuilt from the
response alone — a non-nil remote list (even empty) becomes a non-null list,
a nil remote field resets the state field to nil. -/
def readNetworkConfig : Except String (HttpResp NetworkRestrictionsResponseJson) →
    SettingsResourceModel → SettingsResourceModel × List Diagnostic
  | .error e, state =>
    (state, [⟨"Client Error", "Unable to read network settings: " ++ e⟩])
  | .ok httpResp, state =>
    if httpResp.statusCode = 404 ∨ httpResp.statusCode = 406 then
      (state, [])
    else
      match httpResp.json200 with
      | none =>
        (state, [⟨"Client Error", "Unable to read network settings, got status "
          ++ toString httpResp.statusCode ++ ": " ++ httpResp.body⟩])
      | some js =>
        let net := state.network.getD emptyNetworkConfig
        let net :=
          { net with
            dbAllowedCidrs := match js.config.dbAllowedCidrs with
              | some v4 => some v4
              | none => none
            dbAllowedCidrsV6 := match js.config.dbAllowedCidrsV6 with
              | some v6 => some v6
              | none => none }
        ({ state with network := some net }, [])

/-- Helper `readExternalProvider` of `settings_resource.go`: builds the
in-memory provider config from an API response.  The API never returns
secrets (the `secret` argument is always `""` at every call site and is
ignored, as in the source); the planned secret is retained instead. -/
def readExternalProvider (existingConfig : Option ExternalProviderConfig)
    (enabled : Option Bool) (clientId : Option String) (secret : String)
    (additionalClientIds : Option String) (url : Option String) :
    Option ExternalProviderConfig :=
  if existingConfig = none ∧ (enabled = none ∨ enabled = some false) then
    none
  else
    let config := emptyExternalProviderConfig
    let config := match enabled with
      | some e => { config with enabled := some e }
      | none => config
    let config := match clientId with
      | some c => { config with clientId := some c }
      | none => config
    let config := match existingConfig with
      | some ec => if ec.secret ≠ none then { config with secret := ec.secret } else config
      | none => config
    let config := match additionalClientIds with
      | some a => { config with additionalClientIds := some a }
      | none => config
    let config := match url with
      | some u => { config with url := some u }
      | none => config
    some config

/-- `SettingsResource.readAuthConfig`. -/
def readAuthConfig : Except String (HttpResp AuthConfigResponse) →
    SettingsResourceModel → SettingsResourceModel × List Diagnostic
  | .error e, state =>
    (state, [⟨"Client Error", "Unable to read auth settings: " ++ e⟩])
  | .ok httpResp, state =>
    if httpResp.statusCode = 404 ∨ httpResp.statusCode = 406 then
      (state, [])
    else
      match httpResp.json200 with
      | none =>
        (state, [⟨"Client Error", "Unable to read auth settings, got status "
          ++ toString httpResp.statusCode ++ ": " ++ httpResp.body⟩])
      | some r =>
        let auth := state.auth.getD emptyAuthConfig
        let auth :=
          { auth with
            apiMaxRequestDuration := match r.apiMaxRequestDuration with
              | some v => some v
              | none => auth.apiMaxRequestDuration
            dbMaxPoolSize := match r.dbMaxPoolSize with
              | some v => some v
              | none => auth.dbMaxPoolSize
            disableSignup := match r.disableSignup with
              | some v => some v
              | none => auth.disableSignup
            externalAnonymousUsersEnabled := match r.externalAnonymousUsersEnabled with
              | some v => some v
              | none => auth.externalAnonymousUsersEnabled
            externalEmailEnabled := match r.externalEmailEnabled with
              | some v => some v
              | none => auth.externalEmailEnabled
            siteUrl := match r.siteUrl with
              | some v => some v
              | none => auth.siteUrl
            mailerOtpExp := some r.mailerOtpExp
            mfaPhoneOtpLength := some r.mfaPhoneOtpLength
            smsOtpLength := some r.smsOtpLength
            smtpHost := match r.smtpHost with
              | some v => some v
              | none => auth.smtpHost
            smtpPort := match r.smtpPort with
              | some v => some (parseInt v)
              | none => auth.smtpPort
            smtpUser := match r.smtpUser with
              | some v => some v
              | none => auth.smtpUser
            externalApple := readExternalProvider auth.externalApple
              r.externalAppleEnabled r.externalAppleClientId ""
              r.externalAppleAdditionalClientIds none
            externalAzure := readExternalProvider auth.externalAzure
              r.externalAzureEnabled r.externalAzureClientId "" none
              r.externalAzureUrl
            externalBitbucket := readExternalProvider auth.externalBitbucket
              r.externalBitbucketEnabled r.externalBitbucketClientId "" none none
            externalDiscord := readExternalProvider auth.externalDiscord
              r.externalDiscordEnabled r.externalDiscordClientId "" none none
            externalFacebook := readExternalProvider auth.externalFacebook
              r.externalFacebookEnabled r.externalFacebookClientId "" none none
            externalFigma := readExternalProvider auth.externalFigma
              r.externalFigmaEnabled r.externalFigmaClientId "" none none
            externalGithub := readExternalProvider auth.externalGithub
              r.externalGithubEnabled r.externalGithubClientId "" none none
            externalGitlab := readExternalProvider auth.externalGitlab
              r.externalGitlabEnabled r.externalGitlabClientId "" none
              r.externalGitlabUrl
            externalGoogle := readExternalProvider auth.externalGoogle
              r.externalGoogleEnabled r.externalGoogleClientId ""
              r.externalGoogleAdditionalClientIds none
            externalKakao := readExternalProvider auth.externalKakao
              r.externalKakaoEnabled r.externalKakaoClientId "" none none
            externalKeycloak := readExternalProvider auth.externalKeycloak
              r.externalKeycloakEnabled r.externalKeycloakClientId "" none
              r.externalKeycloakUrl
            externalLinkedinOidc := readExternalProvider auth.externalLinkedinOidc
              r.externalLinkedinOidcEnabled r.externalLinkedinOidcClientId "" none none
            externalNotion := readExternalProvider auth.externalNotion
              r.externalNotionEnabled r.externalNotionClientId "" none none
            externalSlack := readExternalProvider auth.externalSlack
              r.externalSlackEnabled r.externalSlackClientId "" none none
            externalSlackOidc := readExternalProvider auth.externalSlackOidc
              r.externalSlackOidcEnabled r.externalSlackOidcClientId "" none none
            externalSpotify := readExternalProvider auth.externalSpotify
              r.externalSpotifyEnabled r.externalSpotifyClientId "" none none
            externalTwitch := readExternalProvider auth.externalTwitch
              r.externalTwitchEnabled r.externalTwitchClientId "" none none
            externalTwitter := readExternalProvider auth.externalTwitter
              r.externalTwitterEnabled r.externalTwitterClientId "" none none
            externalWorkos := readExternalProvider auth.externalWorkos
              r.externalWorkosEnabled r.externalWorkosClientId "" none
              r.externalWorkosUrl
            externalZoom := readExternalProvider auth.externalZoom
              r.externalZoomEnabled r.externalZoomClientId "" none none }
        ({ state with auth := some auth }, [])

/-- `SettingsResource.readStorageConfig` — a placeholder in the source
("TODO: Implement when API endpoints are available"): no call, no change. -/
def readStorageConfig (state : SettingsResourceModel) :
    SettingsResourceModel × List Diagnostic :=
  (state, [])

/-- `SettingsResource.readPoolerConfig` — placeholder, as above. -/
def readPoolerConfig (state : SettingsResourceModel) :
    SettingsResourceModel × List Diagnostic :=
  (state, [])

/-! ## The divergent settings-module auth read (`settings/auth.go`)

`settings.ReadAuthConfig` differs from every sibling read helper: it reports
an error for *every* status other than 200, with no 404/406 special case.
Its state type is the settings module's flattened `AuthConfig`; only the four
fields the function actually reads or writes are modelled. -/

structure SettingsAuthSlice where
  externalGithubEnabled : Option Bool
  externalGithubClientId : Option String
  disableSignup : Option Bool
  jwtExp : Option Int
deriving Repr, DecidableEq

structure SettingsAuthReadResponse where
  externalGithubEnabled : Option Bool
  externalGithubClientId : Option String
  disableSignup : Option Bool
  jwtExp : Option Int
deriving Repr, DecidableEq

/-- `settings.ReadAuthConfig` (`settings/auth.go`). -/
def settingsReadAuthConfig : Except String (HttpResp SettingsAuthReadResponse) →
    Option SettingsAuthSlice → Option SettingsAuthSlice × List Diagnostic
  | .error e, auth =>
    (auth, [⟨"Error Reading Auth Config",
      "Could not read auth config, unexpected error: " ++ e⟩])
  | .ok httpResp, auth =>
    if httpResp.statusCode ≠ 200 then
      (auth, [⟨"Error Reading Auth Config",
        "Received status " ++ toString httpResp.statusCode ++ ": " ++ httpResp.body⟩])
    else
      match httpResp.json200 with
      | none => (auth, [⟨"Error Reading Auth Config", "No response body"⟩])
      | some r =>
        let a := auth.getD ⟨none, none, none, none⟩
        let a :=
          { a with
            externalGithubEnabled := match r.externalGithubEnabled with
              | some v => some v
              | none => a.externalGithubEnabled
            externalGithubClientId := match r.externalGithubClientId with
              | some v => some v
              | none => a.externalGithubClientId
            disableSignup := match r.disableSignup with
              | some v => some v
              | none => a.disableSignup
            jwtExp := match r.jwtExp with
              | some v => some v
              | none => a.jwtExp }
        (some a, [])

/-! ## CIDR parsing and classification

A model of the Go standard library's `net.ParseCIDR` / `IP.To4` /
`IP.IsPrivate`, which `updateNetworkConfig` uses to validate and classify the
declared CIDR entries.  An IPv4 address is four dotted decimal octets (0–255,
no leading zeros); an IPv6 address is eight 16-bit hexadecimal groups with at
most one `::` compression and an optional trailing dotted-quad standing for
the last two groups.  The prefix length is a decimal suffix bounded by the
address family's bit width. -/

inductive IP where
  | v4 (a b c d : Nat)
  | v6 (groups : List Nat)
deriving Repr, DecidableEq

/-- `IP.To4`: the dotted-quad view, defined for IPv4 addresses and for
IPv4-mapped IPv6 addresses (`::ffff:a.b.c.d`). -/
def IP.to4 : IP → Option (Nat × Nat × Nat × Nat)
  | .v4 a b c d => some (a, b, c, d)
  | .v6 gs =>
    match gs with
    | [0, 0, 0, 0, 0, 65535, hi, lo] => some (hi / 256, hi % 256, lo / 256, lo % 256)
    | _ => none

/-- `IP.IsPrivate`: 10.0.0.0/8, 172.16.0.0/12, 192.168.0.0/16 for IPv4 (and
IPv4-mapped) addresses, fc00::/7 for other IPv6 addresses. -/
def IP.isPrivate (ip : IP) : Bool :=
  match ip.to4 with
  | some (a, b, _, _) =>
    a == 10 || (a == 172 && Nat.land b 240 == 16) || (a == 192 && b == 168)
  | none =>
    match ip with
    | .v6 (g0 :: _) => Nat.land (g0 / 256) 254 == 252
    | _ => false

/-- Split a character list at every occurrence of the separator character
(the `List Char` counterpart of `String.splitOn` for a one-character
separator, by structural recursion). -/
def splitOnChar (sep : Char) : List Char → List (List Char)
  | [] => [[]]
  | c :: cs =>
    if c = sep then [] :: splitOnChar sep cs
    else
      match splitOnChar sep cs with
      | [] => [[c]]
      | g :: gs => (c :: g) :: gs

/-- Split at every (non-overlapping, leftmost-first) occurrence of `::`. -/
def splitOnDoubleColon : List Char → List (List Char)
  | [] => [[]]
  | ':' :: ':' :: cs => [] :: splitOnDoubleColon cs
  | c :: cs =>
    match splitOnDoubleColon cs with
    | [] => [[c]]
    | g :: gs => (c :: g) :: gs

def isHexDigitChar (c : Char) : Bool :=
  c.isDigit || (97 ≤ c.toNat && c.toNat ≤ 102) || (65 ≤ c.toNat && c.toNat ≤ 70)

def hexDigitVal (c : Char) : Nat :=
  if c.isDigit then c.toNat - 48
  else if 97 ≤ c.toNat then c.toNat - 87
  else c.toNat - 55

/-- One 16-bit hexadecimal group of an IPv6 address: one to four hex digits. -/
def parseHexGroup (cs : List Char) : Option Nat :=
  if cs.length = 0 ∨ cs.length > 4 then none
  else if cs.all isHexDigitChar then
    some (cs.foldl (fun acc c => acc * 16 + hexDigitVal c) 0)
  else none

/-- One decimal octet of a dotted quad: digits only, ≤ 255, no leading zero. -/
def parseV4Octet (cs : List Char) : Option Nat :=
  if cs.length = 0 then none
  else if ¬ (cs.all Char.isDigit) then none
  else if 1 < cs.length ∧ cs.headD ' ' = '0' then none
  else
    let n := cs.foldl (fun acc c => acc * 10 + (c.toNat - 48)) 0
    if n ≤ 255 then some n else none

def parseIPv4 (cs : List Char) : Option IP :=
  match splitOnChar '.' cs with
  | [a, b, c, d] =>
    match parseV4Octet a, parseV4Octet b, parseV4Octet c, parseV4Octet d with
    | some av, some bv, some cv, some dv => some (IP.v4 av bv cv dv)
    | _, _, _, _ => none
  | _ => none

/-- Colon-separated pieces of (part of) an IPv6 address, where the final
piece may be a dotted quad standing for the last two groups. -/
def parseTailPieces : List (List Char) → Option (List Nat)
  | [] => some []
  | [p] =>
    if (splitOnChar '.' p).length > 1 then
      match parseIPv4 p with
      | some (.v4 a b c d) => some [a * 256 + b, c * 256 + d]
      | _ => none
    else
      (parseHexGroup p).map (fun g => [g])
  | p :: rest =>
    match parseHexGroup p, parseTailPieces rest with
    | some g, some gs => some (g :: gs)
    | _, _ => none

def parseIPv6 (cs : List Char) : Option IP :=
  match splitOnDoubleColon cs with
  | [one] =>
    match parseTailPieces (splitOnChar ':' one) with
    | some gs => if gs.length = 8 then some (IP.v6 gs) else none
    | none => none
  | [l, r] =>
    let leftGroups := if l = [] then some [] else (splitOnChar ':' l).mapM parseHexGroup
    let rightGroups := if r = [] then some [] else parseTailPieces (splitOnChar ':' r)
    match leftGroups, rightGroups with
    | some lg, some rg =>
      if lg.length + rg.length ≤ 7 then
        some (IP.v6 (lg ++ List.replicate (8 - lg.length - rg.length) 0 ++ rg))
      else none
    | _, _ => none
  | _ => none

/-- `net.ParseCIDR`: split at the first `/`, parse the address (IPv4 first,
then IPv6), and require a decimal prefix length within the family's bit
width.  Returns the parsed address (the source only uses the first return
value of `net.ParseCIDR`). -/
def parseCIDR (s : String) : Option IP :=
  match splitOnChar '/' s.data with
  | [] => none
  | [_] => none
  | addr :: rest =>
    let mask := List.intercalate ['/'] rest
    let parsed : Option IP × Nat :=
      match parseIPv4 addr with
      | some ip => (some ip, 4)
      | none => (parseIPv6 addr, 16)
    match parsed.1 with
    | none => none
    | some ip =>
      if mask.length = 0 then none
      else if ¬ (mask.all Char.isDigit) then none
      else
        let n := mask.foldl (fun acc c => acc * 10 + (c.toNat - 48)) 0
        if n ≤ 8 * parsed.2 then some ip else none

/-- An entry accepted by the validation loop: it parses and is not private. -/
def cidrEntryValid (c : String) : Bool :=
  match parseCIDR c with
  | some ip => !ip.isPrivate
  | none => false

/-- An entry whose parsed address is IPv4 (`ip.To4() != nil`). -/
def cidrEntryIsV4 (c : String) : Bool :=
  match parseCIDR c with
  | some ip => ip.to4.isSome
  | none => false

/-! ## Sub-domain update helpers (`settings_resource.go`)

Each update helper returns the request body it sends alongside its
diagnostics, so request-shaping is observable.  A body field left `none`
is omitted from the serialized request. -/

structure UpdatePostgrestConfigBody where
  dbExtraSearchPath : Option String
  dbPool : Option Int
  dbSchema : Option String
  maxRows : Option Int
deriving Repr, DecidableEq

/-- Body construction of `updateApiConfig`: start from the zero body and set
each field only when the planned value is not null. -/
def updateApiConfigBody (a : ApiConfig) : UpdatePostgrestConfigBody :=
  { dbExtraSearchPath := match a.dbExtraSearchPath with
      | some v => some v
      | none => none
    dbPool := match a.dbPool with
      | some v => some v
      | none => none
    dbSchema := match a.dbSchema with
      | some v => some v
      | none => none
    maxRows := match a.maxRows with
      | some v => some v
      | none => none }

/-- `SettingsResource.updateApiConfig`: build the body, issue the PATCH, and
fail unless the response carries a parsed 200 body. -/
def updateApiConfig (resp : Except String (HttpResp Unit)) (a : ApiConfig) :
    UpdatePostgrestConfigBody × List Diagnostic :=
  (updateApiConfigBody a,
    match resp with
    | .error e => [⟨"Client Error", "Unable to update api settings: " ++ e⟩]
    | .ok httpResp =>
      match httpResp.json200 with
      | none => [⟨"Client Error", "Unable to update api settings, got status "
          ++ toString httpResp.statusCode ++ ": " ++ httpResp.body⟩]
      | some _ => [])

structure UpdatePostgresConfigBody where
  effectiveCacheSize : Option String
  logicalDecodingWorkMem : Option String
  maintenanceWorkMem : Option String
  maxConnections : Option Int
  statementTimeout : Option String
  sharedBuffers : Option String
  workMem : Option String
  restartDatabase : Option Bool
deriving Repr, DecidableEq

/-- Body construction of `updateDatabaseConfig`. -/
def updateDatabaseConfigBody (db : DatabaseConfig) : UpdatePostgresConfigBody :=
  { effectiveCacheSize := match db.effectiveCacheSize with
      | some v => some v
      | none => none
    logicalDecodingWorkMem := match db.logicalDecodingWorkMem with
      | some v => some v
      | none => none
    maintenanceWorkMem := match db.maintenanceWorkMem with
      | some v => some v
      | none => none
    maxConnections := match db.maxConnections with
      | some v => some v
      | none => none
    statementTimeout := match db.statementTimeout with
      | some v => some v
      | none => none
    sharedBuffers := match db.sharedBuffers with
      | some v => some v
      | none => none
    workMem := match db.workMem with
      | some v => some v
      | none => none
    restartDatabase := match db.restartDatabase with
      | some v => some v
      | none => none }

/-- `SettingsResource.updateDatabaseConfig`. -/
def updateDatabaseConfig (resp : Except String (HttpResp Unit)) (db : DatabaseConfig) :
    UpdatePostgresConfigBody × List Diagnostic :=
  (updateDatabaseConfigBody db,
    match resp with
    | .error e => [⟨"Client Error", "Unable to update database settings: " ++ e⟩]
    | .ok httpResp =>
      match httpResp.json200 with
      | none => [⟨"Client Error", "Unable to update database settings, got status "
          ++ toString httpResp.statusCode ++ ": " ++ httpResp.body⟩]
      | some _ => [])

/-- One provider's slots inside `api.UpdateAuthConfigBody`.  Providers whose
Go body has no `...AdditionalClientIds` / `...Url` field receive a nil
pointer for that slot in the source; the `hasAdditionalClientIds` / `hasUrl`
flags of `updateExternalProvider` model that. -/
structure ProviderBodyFields where
  enabled : Option Bool
  clientId : Option String
  secret : Option String
  additionalClientIds : Option String
  url : Option String
deriving Repr, DecidableEq

def emptyProviderBodyFields : ProviderBodyFields :=
  { enabled := none, clientId := none, secret := none
    additionalClientIds := none, url := none }

/-- Helper `updateExternalProvider` of `settings_resource.go`: copy each
non-null planned field into the request body; when the plan has no config for
the provider, set nothing. -/
def updateExternalProvider (config : Option ExternalProviderConfig)
    (hasAdditionalClientIds : Bool) (hasUrl : Bool) : ProviderBodyFields :=
  match config with
  | none => emptyProviderBodyFields
  | some c =>
    { enabled := match c.enabled with
        | some v => some v
        | none => none
      clientId := match c.clientId with
        | some v => some v
        | none => none
      secret := match c.secret with
        | some v => some v
        | none => none
      additionalClientIds :=
        if hasAdditionalClientIds then
          match c.additionalClientIds with
          | some v => some v
          | none => none
        else none
      url :=
        if hasUrl then
          match c.url with
          | some v => some v
          | none => none
        else none }

structure UpdateAuthConfigBody where
  apiMaxRequestDuration : Option Int
  dbMaxPoolSize : Option Int
  disableSignup : Option Bool
  externalAnonymousUsersEnabled : Option Bool
  externalEmailEnabled : Option Bool
  siteUrl : Option String
  smtpHost : Option String
  smtpPort : Option String
  smtpUser : Option String
  smtpPass : Option String
  externalApple : ProviderBodyFields
  externalAzure : ProviderBodyFields
  externalBitbucket : ProviderBodyFields
  externalDiscord : ProviderBodyFields
  externalFacebook : ProviderBodyFields
  externalFigma : ProviderBodyFields
  externalGithub : ProviderBodyFields
  externalGitlab : ProviderBodyFields
  externalGoogle : ProviderBodyFields
  externalKakao : ProviderBodyFields
  externalKeycloak : ProviderBodyFields
  externalLinkedinOidc : ProviderBodyFields
  externalNotion : ProviderBodyFields
  externalSlack : ProviderBodyFields
  externalSlackOidc : ProviderBodyFields
  externalSpotify : ProviderBodyFields
  externalTwitch : ProviderBodyFields
  externalTwitter : ProviderBodyFields
  externalWorkos : ProviderBodyFields
  externalZoom : ProviderBodyFields
deriving Repr, DecidableEq

/-- Body construction of `updateAuthConfig`: null-guarded scalar copies
(`smtpPort` is rendered to a string with `fmt.Sprintf`), then one
`updateExternalProvider` call per provider, with the additional-client-ids
slot present only for Apple and Google and the url slot only for Azure,
GitLab, Keycloak and WorkOS — mirroring which pointers are non-nil at each
call site in the source. -/
def updateAuthConfigBody (a : AuthConfig) : UpdateAuthConfigBody :=
  { apiMaxRequestDuration := match a.apiMaxRequestDuration with
      | some v => some v
      | none => none
    dbMaxPoolSize := match a.dbMaxPoolSize with
      | some v => some v
      | none => none
    disableSignup := match a.disableSignup with
      | some v => some v
      | none => none
    externalAnonymousUsersEnabled := match a.externalAnonymousUsersEnabled with
      | some v => some v
      | none => none
    externalEmailEnabled := match a.externalEmailEnabled with
      | some v => some v
      | none => none
    siteUrl := match a.siteUrl with
      | some v => some v
      | none => none
    smtpHost := match a.smtpHost with
      | some v => some v
      | none => none
    smtpPort := match a.smtpPort with
      | some v => some (toString v)
      | none => none
    smtpUser := match a.smtpUser with
      | some v => some v
      | none => none
    smtpPass := match a.smtpPass with
      | some v => some v
      | none => none
    externalApple := updateExternalProvider a.externalApple true false
    externalAzure := updateExternalProvider a.externalAzure false true
    externalBitbucket := updateExternalProvider a.externalBitbucket false false
    externalDiscord := updateExternalProvider a.externalDiscord false false
    externalFacebook := updateExternalProvider a.externalFacebook false false
    externalFigma := updateExternalProvider a.externalFigma false false
    externalGithub := updateExternalProvider a.externalGithub false false
    externalGitlab := updateExternalProvider a.externalGitlab false true
    externalGoogle := updateExternalProvider a.externalGoogle true false
    externalKakao := updateExternalProvider a.externalKakao false false
    externalKeycloak := updateExternalProvider a.externalKeycloak false true
    externalLinkedinOidc := updateExternalProvider a.externalLinkedinOidc false false
    externalNotion := updateExternalProvider a.externalNotion false false
    externalSlack := updateExternalProvider a.externalSlack false false
    externalSlackOidc := updateExternalProvider a.externalSlackOidc false false
    externalSpotify := updateExternalProvider a.externalSpotify false false
    externalTwitch := updateExternalProvider a.externalTwitch false false
    externalTwitter := updateExternalProvider a.externalTwitter false false
    externalWorkos := updateExternalProvider a.externalWorkos false true
    externalZoom := updateExternalProvider a.externalZoom false false }

/-- `SettingsResource.updateAuthConfig`. -/
def updateAuthConfig (resp : Except String (HttpResp Unit)) (a : AuthConfig) :
    UpdateAuthConfigBody × List Diagnostic :=
  (updateAuthConfigBody a,
    match resp with
    | .error e => [⟨"Client Error", "Unable to update auth settings: " ++ e⟩]
    | .ok httpResp =>
      match httpResp.json200 with
      | none => [⟨"Client Error", "Unable to update auth settings, got status "
          ++ toString httpResp.statusCode ++ ": " ++ httpResp.body⟩]
      | some _ => [])

structure NetworkRestrictionsRequest where
  dbAllowedCidrs : Option (List String)
  dbAllowedCidrsV6 : Option (List String)
deriving Repr, DecidableEq

/-- The first validation loop of `updateNetworkConfig`, over the declared
`db_allowed_cidrs` list: reject on parse failure or a private address, and
keep an entry for the outgoing IPv4 field only when `ip.To4() != nil`. -/
def processV4Cidrs : List String → Except Diagnostic (List String)
  | [] => .ok []
  | cidrStr :: rest =>
    match parseCIDR cidrStr with
    | none => .error ⟨"Validation Error", "Invalid CIDR: " ++ cidrStr⟩
    | some ip =>
      if ip.isPrivate then
        .error ⟨"Validation Error", "Private IP not allowed: " ++ cidrStr⟩
      else
        match processV4Cidrs rest with
        | .error d => .error d
        | .ok tail =>
          if ip.to4.isSome then .ok (cidrStr :: tail) else .ok tail

/-- The second validation loop of `updateNetworkConfig`, over the declared
`db_allowed_cidrs_v6` list: same validation, keeping an entry for the
outgoing IPv6 field only when `ip.To4() == nil`. -/
def processV6Cidrs : List String → Except Diagnostic (List String)
  | [] => .ok []
  | cidrStr :: rest =>
    match parseCIDR cidrStr with
    | none => .error ⟨"Validation Error", "Invalid CIDR: " ++ cidrStr⟩
    | some ip =>
      if ip.isPrivate then
        .error ⟨"Validation Error", "Private IP not allowed: " ++ cidrStr⟩
      else
        match processV6Cidrs rest with
        | .error d => .error d
        | .ok tail =>
          if ip.to4.isNone then .ok (cidrStr :: tail) else .ok tail

/-- Request construction of `updateNetworkConfig`: the body starts with both
CIDR fields present as empty (non-nil) lists — `DbAllowedCidrs: &[]string{}`,
`DbAllowedCidrsV6: &[]string{}` — and the two loops append to them.  A nil
declared list ranges as empty. -/
def buildNetworkRestrictionsBody (net : NetworkConfig) :
    Except Diagnostic NetworkRestrictionsRequest :=
  match processV4Cidrs (net.dbAllowedCidrs.getD []) with
  | .error d => .error d
  | .ok v4 =>
    match processV6Cidrs (net.dbAllowedCidrsV6.getD []) with
    | .error d => .error d
    | .ok v6 => .ok { dbAllowedCidrs := some v4, dbAllowedCidrsV6 := some v6 }

/-- `SettingsResource.updateNetworkConfig` (identically
`settings.UpdateNetworkConfig`): validation precedes the network call, so on
a validation error no request is issued (`none`); otherwise the PUT is sent
and must yield a parsed 201 body. -/
def updateNetworkConfig (resp : Except String (Http201Resp Unit)) (net : NetworkConfig) :
    Option NetworkRestrictionsRequest × List Diagnostic :=
  match buildNetworkRestrictionsBody net with
  | .error d => (none, [d])
  | .ok body =>
    (some body,
      match resp with
      | .error e => [⟨"Client Error", "Unable to update network settings: " ++ e⟩]
      | .ok httpResp =>
        match httpResp.json201 with
        | none => [⟨"Client Error", "Unable to update network settings, got status "
            ++ toString httpResp.statusCode ++ ": " ++ httpResp.body⟩]
        | some _ => [])

/-! ## Aggregate Create/Update dispatch (`SettingsResource.Update`)

The dispatch in `settings_resource.go` (the `settings/resource.go` copy has
the same shape): each declared sub-document's update helper runs in the fixed
order database, network, api, auth, storage, pooler, with no early return
between them; diagnostics accumulate; state is written only when no
diagnostic is an error.  Storage and pooler updates are placeholders that
issue no request. -/

structure UpdateRemote where
  database : Except String (HttpResp Unit)
  network : Except String (Http201Resp Unit)
  api : Except String (HttpResp Unit)
  auth : Except String (HttpResp Unit)

inductive SubRequest where
  | database (b : UpdatePostgresConfigBody)
  | network (b : NetworkRestrictionsRequest)
  | api (b : UpdatePostgrestConfigBody)
  | auth (b : UpdateAuthConfigBody)
deriving Repr, DecidableEq

structure UpdateOutcome where
  requests : List SubRequest
  diagnostics : List Diagnostic
  written : Option SettingsResourceModel
deriving Repr, DecidableEq

/-- `SettingsResource.Update` (and the identical dispatch of `Create`, which
additionally copies `project_ref` into `id` before writing state). -/
def settingsUpdate (remote : UpdateRemote) (plan : SettingsResourceModel) :
    UpdateOutcome :=
  let dbPart : List SubRequest × List Diagnostic :=
    match plan.database with
    | some db =>
      let r := updateDatabaseConfig remote.database db
      ([SubRequest.database r.1], r.2)
    | none => ([], [])
  let netPart : List SubRequest × List Diagnostic :=
    match plan.network with
    | some net =>
      let r := updateNetworkConfig remote.network net
      (match r.1 with
        | some b => [SubRequest.network b]
        | none => [], r.2)
    | none => ([], [])
  let apiPart : List SubRequest × List Diagnostic :=
    match plan.api with
    | some a =>
      let r := updateApiConfig remote.api a
      ([SubRequest.api r.1], r.2)
    | none => ([], [])
  let authPart : List SubRequest × List Diagnostic :=
    match plan.auth with
    | some a =>
      let r := updateAuthConfig remote.auth a
      ([SubRequest.auth r.1], r.2)
    | none => ([], [])
  let diags := dbPart.2 ++ netPart.2 ++ apiPart.2 ++ authPart.2
  { requests := dbPart.1 ++ netPart.1 ++ apiPart.1 ++ authPart.1
    diagnostics := diags
    written := if diags.isEmpty then some plan else none }

/-! ## Concrete fixtures used to instantiate the theorems -/

def tmEmpty : TokenManagerState := ⟨fun _ => none⟩

/-- A key listing with the anonymous key first — exercising that the scan is
order-insensitive. -/
def keysRespOk : Except String KeysResponse :=
  .ok ⟨200, "", some [⟨"anon", "anon-jwt"⟩, ⟨"service_role", "role-jwt"⟩]⟩

def emptyModel : SettingsResourceModel :=
  { projectRef := none, database := none, pooler := none, network := none
    storage := none, auth := none, api := none, id := none }

/-- State whose network sub-document declares `db_allowed_cidrs_v6 = []` and
leaves `db_allowed_cidrs` undeclared. -/
def c1State : SettingsResourceModel :=
  { emptyModel with network := some { dbAllowedCidrs := none, dbAllowedCidrsV6 := some [] } }

/-- A network read response returning an empty (non-nil) IPv4 list and
omitting the IPv6 list. -/
def c1Resp : Except String (HttpResp NetworkRestrictionsResponseJson) :=
  .ok ⟨200, "", some ⟨⟨some [], none⟩⟩⟩

def c2Provider : ExternalProviderConfig :=
  { emptyExternalProviderConfig with
    enabled := some true
    clientId := some "cid"
    secret := some "S2" }

def c2Auth : AuthConfig :=
  { emptyAuthConfig with smtpPass := some "S", externalGithub := some c2Provider }

def c2State : SettingsResourceModel :=
  { emptyModel with auth := some c2Auth }

/-- An auth read response that omits every optional field (in particular all
secrets, which the endpoint never returns). -/
def c2AuthResp : AuthConfigResponse :=
  { apiMaxRequestDuration := none, dbMaxPoolSize := none, disableSignup := none
    externalAnonymousUsersEnabled := none, externalEmailEnabled := none
    siteUrl := none, mailerOtpExp := 0, mfaPhoneOtpLength := 0, smsOtpLength := 0
    smtpHost := none, smtpPort := none, smtpUser := none
    externalAppleEnabled := none, externalAppleClientId := none
    externalAppleAdditionalClientIds := none
    externalAzureEnabled := none, externalAzureClientId := none
    externalAzureUrl := none
    externalBitbucketEnabled := none, externalBitbucketClientId := none
    externalDiscordEnabled := none, externalDiscordClientId := none
    externalFacebookEnabled := none, externalFacebookClientId := none
    externalFigmaEnabled := none, externalFigmaClientId := none
    externalGithubEnabled := none, externalGithubClientId := none
    externalGitlabEnabled := none, externalGitlabClientId := none
    externalGitlabUrl := none
    externalGoogleEnabled := none, externalGoogleClientId := none
    externalGoogleAdditionalClientIds := none
    externalKakaoEnabled := none, externalKakaoClientId := none
    externalKeycloakEnabled := none, externalKeycloakClientId := none
    externalKeycloakUrl := none
    externalLinkedinOidcEnabled := none, externalLinkedinOidcClientId := none
    externalNotionEnabled := none, externalNotionClientId := none
    externalSlackEnabled := none, externalSlackClientId := none
    externalSlackOidcEnabled := none, externalSlackOidcClientId := none
    externalSpotifyEnabled := none, externalSpotifyClientId := none
    externalTwitchEnabled := none, externalTwitchClientId := none
    externalTwitterEnabled := none, externalTwitterClientId := none
    externalWorkosEnabled := none, externalWorkosClientId := none
    externalWorkosUrl := none
    externalZoomEnabled := none, externalZoomClientId := none }

def c2Hr : HttpResp AuthConfigResponse := ⟨200, "", some c2AuthResp⟩

def c2Resp : Except String (HttpResp AuthConfigResponse) := .ok c2Hr

/-- A valid, public IPv6 entry placed in the (IPv4) `db_allowed_cidrs` list. -/
def c6Entry : String := "2001:db8:1::/48"

def httpOkUnit : Except String (HttpResp Unit) := .ok ⟨200, "", some ()⟩

def http500Unit : Except String (HttpResp Unit) := .ok ⟨500, "boom", none⟩

def http201Unit : Except String (Http201Resp Unit) := .ok ⟨201, "", some ()⟩

/-- Remote fixture for the aggregate update: api succeeds, auth returns 500. -/
def c8Remote : UpdateRemote :=
  { database := httpOkUnit, network := http201Unit, api := httpOkUnit
    auth := http500Unit }

/-- Plan declaring only the api and auth sub-documents. -/
def c8Plan : SettingsResourceModel :=
  { emptyModel with api := some emptyApiConfig, auth := some emptyAuthConfig }

/-! # Theorems

Helper lemmas first, then one theorem per claim (with a witness where the
theorem carries hypotheses). -/

/-- A successful `fetchProjectTokens` never returns an empty service-role
secret: the Go code returns an error in that case. -/
theorem fetchProjectTokens_ok_roleKey_ne (now : Nat) (P : String)
    (r : Except String KeysResponse) (t : ProjectTokens)
    (h : fetchProjectTokens now P r = .ok t) : t.serviceRoleKey ≠ "" := by
  unfold fetchProjectTokens at h
  split at h
  · simp at h
  · split at h
    · simp at h
    · split at h
      · simp at h
      · split at h
        · simp at h
        · split at h
          · simp at h
          · rename_i hne
            simp only [Except.ok.injEq] at h
            subst h
            simpa using hne

theorem cacheInsert_self (tm : TokenManagerState) (P : String) (tk : ProjectTokens) :
    (cacheInsert tm P tk).projectTokens P = some tk := by
  simp [cacheInsert]

/-- Case analysis for `fetchAndCache`. -/
theorem fetchAndCache_eq (now : Nat) (P : String)
    (r : Except String KeysResponse) (tm : TokenManagerState) :
    (∃ msg, fetchProjectTokens now P r = .error msg ∧
      fetchAndCache now P r tm =
        ⟨.error ("failed to fetch project tokens: " ++ msg), tm, true⟩) ∨
    (∃ tk, fetchProjectTokens now P r = .ok tk ∧
      fetchAndCache now P r tm = ⟨.ok tk.serviceRoleKey, cacheInsert tm P tk, true⟩) := by
  unfold fetchAndCache
  cases hf : fetchProjectTokens now P r with
  | error msg => exact Or.inl ⟨msg, rfl, rfl⟩
  | ok tk => exact Or.inr ⟨tk, rfl, rfl⟩

/-- `fetchAndCache` always counts as an exchange. -/
theorem fetchAndCache_exchanged (now : Nat) (P : String)
    (r : Except String KeysResponse) (tm : TokenManagerState) :
    (fetchAndCache now P r tm).exchanged = true := by
  rcases fetchAndCache_eq now P r tm with ⟨msg, _, hfc⟩ | ⟨tk, _, hfc⟩ <;>
    rw [hfc]

/-- Case analysis for `GetServiceRoleToken`: either a cache hit (entry fresh
and non-empty) or a delegation to `fetchAndCache` (no such entry). -/
theorem GetServiceRoleToken_cases (now : Nat) (P : String)
    (r : Except String KeysResponse) (tm : TokenManagerState) :
    (∃ tokens, tm.projectTokens P = some tokens ∧
      (now - tokens.cachedAt < freshnessWindow ∧ tokens.serviceRoleKey ≠ "") ∧
      GetServiceRoleToken now P r tm = ⟨.ok tokens.serviceRoleKey, tm, false⟩) ∨
    ((∀ tokens, tm.projectTokens P = some tokens →
        ¬ (now - tokens.cachedAt < freshnessWindow ∧ tokens.serviceRoleKey ≠ "")) ∧
      GetServiceRoleToken now P r tm = fetchAndCache now P r tm) := by
  unfold GetServiceRoleToken
  cases htm : tm.projectTokens P with
  | none =>
    refine Or.inr ⟨?_, rfl⟩
    intro tokens h
    exact absurd h (by simp)
  | some tokens =>
    by_cases hcond : now - tokens.cachedAt < freshnessWindow ∧ tokens.serviceRoleKey ≠ ""
    · exact Or.inl ⟨tokens, rfl, hcond, if_pos hcond⟩
    · refine Or.inr ⟨?_, if_neg hcond⟩
      intro tokens2 h
      simp only [Option.some.injEq] at h
      subst h
      exact hcond

/-- With no cached entry for the project, `GetServiceRoleToken` exchanges. -/
theorem get_on_miss_exchanges (now : Nat) (P : String)
    (r : Except String KeysResponse) (tm : TokenManagerState)
    (h : tm.projectTokens P = none) :
    (GetServiceRoleToken now P r tm).exchanged = true := by
  rcases GetServiceRoleToken_cases now P r tm with ⟨tokens, htm, _, _⟩ | ⟨_, hg⟩
  · rw [h] at htm
    exact absurd htm (by simp)
  · rw [hg]
    exact fetchAndCache_exchanged now P r tm

/-- After a successful `GetServiceRoleToken`, any cached entry for the
project has a non-empty service-role secret. -/
theorem get_ok_entry_roleKey_ne (now : Nat) (P : String)
    (r : Except String KeysResponse) (tm : TokenManagerState) (s : String)
    (hok : (GetServiceRoleToken now P r tm).result = .ok s)
    (e : ProjectTokens)
    (he : (GetServiceRoleToken now P r tm).state.projectTokens P = some e) :
    e.serviceRoleKey ≠ "" := by
  rcases GetServiceRoleToken_cases now P r tm with ⟨tokens, htm, hcond, hg⟩ | ⟨_, hg⟩
  · rw [hg] at he
    rw [htm] at he
    simp only [Option.some.injEq] at he
    subst he
    exact hcond.2
  · rw [hg] at hok he
    rcases fetchAndCache_eq now P r tm with ⟨msg, _, hfc⟩ | ⟨tk, hf, hfc⟩
    · rw [hfc] at hok
      simp at hok
    · rw [hfc] at he
      rw [cacheInsert_self] at he
      simp only [Option.some.injEq] at he
      subst he
      exact fetchProjectTokens_ok_roleKey_ne now P r tk hf

/-- C3: for every project identifier P, if `GetServiceRoleToken(P)` succeeds,
a second `GetServiceRoleToken(P)` issued while the cached entry's age is
strictly below the one-hour freshness window (and its cached service-role
secret is non-empty, which success guarantees) returns the cached secret
without invoking the exchanger and leaves the cache unchanged — so two get(P)
calls within the window trigger at most one exchange; and an entry whose age
is at least the freshness window is never served from the cache (the call
exchanges instead). -/
theorem cache_hit_within_freshness_window :
    (∀ (tm : TokenManagerState) (t1 t2 : Nat) (P : String)
       (r1 r2 : Except String KeysResponse) (s : String) (e : ProjectTokens),
       (GetServiceRoleToken t1 P r1 tm).result = .ok s →
       (GetServiceRoleToken t1 P r1 tm).state.projectTokens P = some e →
       t2 - e.cachedAt < freshnessWindow →
       (GetServiceRoleToken t2 P r2 (GetServiceRoleToken t1 P r1 tm).state).exchanged = false ∧
       (GetServiceRoleToken t2 P r2 (GetServiceRoleToken t1 P r1 tm).state).result =
         .ok e.serviceRoleKey ∧
       (GetServiceRoleToken t2 P r2 (GetServiceRoleToken t1 P r1 tm).state).state =
         (GetServiceRoleToken t1 P r1 tm).state) ∧
    (∀ (tm : TokenManagerState) (now : Nat) (P : String)
       (r : Except String KeysResponse) (e : ProjectTokens),
       tm.projectTokens P = some e →
       freshnessWindow ≤ now - e.cachedAt →
       (GetServiceRoleToken now P r tm).exchanged = true) := by
  constructor
  · intro tm t1 t2 P r1 r2 s e hok he hfresh
    have hne : e.serviceRoleKey ≠ "" := get_ok_entry_roleKey_ne t1 P r1 tm s hok e he
    rcases GetServiceRoleToken_cases t2 P r2 (GetServiceRoleToken t1 P r1 tm).state with
      ⟨tokens, htm, hcond, hg⟩ | ⟨hmiss, _⟩
    · rw [he] at htm
      simp only [Option.some.injEq] at htm
      subst htm
      rw [hg]
      exact ⟨rfl, rfl, rfl⟩
    · exact absurd ⟨hfresh, hne⟩ (hmiss e he)
  · intro tm now P r e htm hstale
    rcases GetServiceRoleToken_cases now P r tm with ⟨tokens, htm2, hcond, _⟩ | ⟨_, hg⟩
    · rw [htm] at htm2
      simp only [Option.some.injEq] at htm2
      subst htm2
      exact absurd hcond.1 (Nat.not_lt.mpr hstale)
    · rw [hg]
      exact fetchAndCache_exchanged now P r tm

/-- Witness for C3 at a concrete input: a first get at time 0 fills the
cache; a second get at time 100 with an unreachable exchanger still succeeds
from the cache without exchanging. -/
theorem cache_hit_within_freshness_window_witness :
    (GetServiceRoleToken 100 "p" (Except.error "down")
      (GetServiceRoleToken 0 "p" keysRespOk tmEmpty).state).exchanged = false ∧
    (GetServiceRoleToken 100 "p" (Except.error "down")
      (GetServiceRoleToken 0 "p" keysRespOk tmEmpty).state).result = .ok "role-jwt" := by
  have h := cache_hit_within_freshness_window.1 tmEmpty 0 100 "p" keysRespOk
    (Except.error "down") "role-jwt" ⟨"role-jwt", "anon-jwt", 0⟩ rfl rfl (by decide)
  exact ⟨h.1, h.2.1⟩

/-- C4: `InvalidateProjectTokens(P)` unconditionally removes the cached entry
for P and leaves every other project's entry unchanged, so the sequence
get(P), invalidate(P), get(P) performs exactly two exchange calls regardless
of the freshness window. -/
theorem invalidate_forces_refetch :
    (∀ (tm : TokenManagerState) (P : String),
       (InvalidateProjectTokens P tm).projectTokens P = none) ∧
    (∀ (tm : TokenManagerState) (P Q : String), Q ≠ P →
       (InvalidateProjectTokens P tm).projectTokens Q = tm.projectTokens Q) ∧
    (∀ (tm : TokenManagerState) (P : String) (t1 t2 : Nat)
       (r1 r2 : Except String KeysResponse),
       tm.projectTokens P = none →
       (GetServiceRoleToken t1 P r1 tm).exchanged = true ∧
       (GetServiceRoleToken t2 P r2 (InvalidateProjectTokens P
         (GetServiceRoleToken t1 P r1 tm).state)).exchanged = true) := by
  refine ⟨?_, ?_, ?_⟩
  · intro tm P
    simp [InvalidateProjectTokens]
  · intro tm P Q h
    simp [InvalidateProjectTokens, h]
  · intro tm P t1 t2 r1 r2 h
    refine ⟨get_on_miss_exchanges t1 P r1 tm h, ?_⟩
    exact get_on_miss_exchanges t2 P r2 _ (by simp [InvalidateProjectTokens])

/-- Witness for C4 at a concrete input: get, invalidate, get on a cold cache
exchanges on both gets. -/
theorem invalidate_forces_refetch_witness :
    (GetServiceRoleToken 0 "p" keysRespOk tmEmpty).exchanged = true ∧
    (GetServiceRoleToken 10 "p" keysRespOk (InvalidateProjectTokens "p"
      (GetServiceRoleToken 0 "p" keysRespOk tmEmpty).state)).exchanged = true :=
  invalidate_forces_refetch.2.2 tmEmpty "p" 0 10 keysRespOk keysRespOk rfl

/-- C10: every successful `GetServiceRoleToken` returns a non-empty
service-role secret — a cache hit requires a non-empty cached secret, and a
fresh exchange errors instead of returning an entry whose service-role secret
is empty. -/
theorem service_role_token_nonempty :
    (∀ (now : Nat) (P : String) (r : Except String KeysResponse)
       (tm : TokenManagerState) (s : String),
       (GetServiceRoleToken now P r tm).result = .ok s → s ≠ "") ∧
    (∀ (now : Nat) (P : String) (r : Except String KeysResponse)
       (t : ProjectTokens),
       fetchProjectTokens now P r = .ok t → t.serviceRoleKey ≠ "") := by
  constructor
  · intro now P r tm s hok
    rcases GetServiceRoleToken_cases now P r tm with ⟨tokens, _, hcond, hg⟩ | ⟨_, hg⟩
    · rw [hg] at hok
      obtain rfl : tokens.serviceRoleKey = s := by simpa using hok
      exact hcond.2
    · rw [hg] at hok
      rcases fetchAndCache_eq now P r tm with ⟨msg, _, hfc⟩ | ⟨tk, hf, hfc⟩
      · rw [hfc] at hok
        simp at hok
      · rw [hfc] at hok
        obtain rfl : tk.serviceRoleKey = s := by simpa using hok
        exact fetchProjectTokens_ok_roleKey_ne now P r tk hf
  · intro now P r t h
    exact fetchProjectTokens_ok_roleKey_ne now P r t h

/-- Witness for C10 at a concrete input. -/
theorem service_role_token_nonempty_witness :
    (GetServiceRoleToken 0 "p" keysRespOk tmEmpty).result = .ok "role-jwt" ∧
    ("role-jwt" : String) ≠ "" :=
  ⟨rfl, service_role_token_nonempty.1 0 "p" keysRespOk tmEmpty "role-jwt" rfl⟩

/-- Characterization of the scanning loop: the recorded service-role (resp.
anonymous) secret is the last secret among the entries named `service_role`
(resp. `anon`), falling back to the accumulator's value; the timestamp is
untouched. -/
theorem scanKeys_eq (keys : List ApiKeyInfo) (acc : ProjectTokens) :
    scanKeys acc keys =
      ⟨((keys.filter (fun k => k.name == "service_role")).map ApiKeyInfo.apiKey).getLastD
          acc.serviceRoleKey,
        ((keys.filter (fun k => k.name == "anon")).map ApiKeyInfo.apiKey).getLastD
          acc.anonKey,
        acc.cachedAt⟩ := by
  induction keys generalizing acc with
  | nil => rfl
  | cons k rest ih =>
    have hstep : scanKeys acc (k :: rest) = scanKeys (scanKeyStep acc k) rest := rfl
    rw [hstep, ih]
    by_cases h1 : (k.name == "service_role") = true
    · have hs : scanKeyStep acc k = { acc with serviceRoleKey := k.apiKey } := by
        simp [scanKeyStep, h1]
      have hanon : (k.name == "anon") = false := by
        have hk : k.name = "service_role" := by simpa using h1
        simp [hk]
      have hr : List.filter (fun x => x.name == "service_role") (k :: rest)
          = k :: List.filter (fun x => x.name == "service_role") rest := by
        simp [List.filter_cons, h1]
      have ha : List.filter (fun x => x.name == "anon") (k :: rest)
          = List.filter (fun x => x.name == "anon") rest := by
        simp [List.filter_cons, hanon]
      rw [hs, hr, ha, List.map_cons, List.getLastD_cons]
    · have hrole : (k.name == "service_role") = false := by
        simpa using h1
      have hr : List.filter (fun x => x.name == "service_role") (k :: rest)
          = List.filter (fun x => x.name == "service_role") rest := by
        simp [List.filter_cons, hrole]
      by_cases h2 : (k.name == "anon") = true
      · have hs : scanKeyStep acc k = { acc with anonKey := k.apiKey } := by
          simp [scanKeyStep, hrole, h2]
        have ha : List.filter (fun x => x.name == "anon") (k :: rest)
            = k :: List.filter (fun x => x.name == "anon") rest := by
          simp [List.filter_cons, h2]
        rw [hs, hr, ha, List.map_cons, List.getLastD_cons]
      · have hanon : (k.name == "anon") = false := by
          simpa using h2
        have hs : scanKeyStep acc k = acc := by
          simp [scanKeyStep, hrole, hanon]
        have ha : List.filter (fun x => x.name == "anon") (k :: rest)
            = List.filter (fun x => x.name == "anon") rest := by
          simp [List.filter_cons, hanon]
        rw [hs, hr, ha]

/-- C5: the credential exchange requests the key listing with the
reveal-secrets flag set; it fails with the not-found error "no API keys
found" when the parsed key list is absent or empty; it fails with the
not-found error "service_role key not found" when no key named
`service_role` is present (returning the error, not retrying); and on
success it returns both the service-role and the anonymous secret, with
hypotheses on the key list that are insensitive to the order of entries. -/
theorem fetch_tokens_contract :
    (∀ P : String, (keysRequestParams P).reveal = true) ∧
    (∀ (now : Nat) (P b : String),
       fetchProjectTokens now P (.ok ⟨200, b, none⟩) =
         .error ("no API keys found for project " ++ P)) ∧
    (∀ (now : Nat) (P b : String),
       fetchProjectTokens now P (.ok ⟨200, b, some []⟩) =
         .error ("no API keys found for project " ++ P)) ∧
    (∀ (now : Nat) (P b : String) (keys : List ApiKeyInfo),
       keys ≠ [] →
       (∀ k ∈ keys, k.name ≠ "service_role") →
       fetchProjectTokens now P (.ok ⟨200, b, some keys⟩) =
         .error ("service_role key not found for project " ++ P)) ∧
    (∀ (now : Nat) (P b s a : String) (keys : List ApiKeyInfo),
       (keys.filter (fun k => k.name == "service_role")).map ApiKeyInfo.apiKey = [s] →
       (keys.filter (fun k => k.name == "anon")).map ApiKeyInfo.apiKey = [a] →
       s ≠ "" →
       fetchProjectTokens now P (.ok ⟨200, b, some keys⟩) = .ok ⟨s, a, now⟩) := by
  refine ⟨fun P => rfl, fun now P b => rfl, fun now P b => rfl, ?_, ?_⟩
  · intro now P b keys hne hno
    have hlen : ¬ keys.length = 0 := by simpa using hne
    have hfilter : keys.filter (fun k => k.name == "service_role") = [] := by
      rw [List.filter_eq_nil_iff]
      intro k hk
      simpa using hno k hk
    have hscan := scanKeys_eq keys ⟨"", "", now⟩
    rw [hfilter] at hscan
    simp [fetchProjectTokens, hlen, hscan]
  · intro now P b s a keys hrole hanon hs
    have hkeysne : keys ≠ [] := by
      intro h
      subst h
      simp at hrole
    have hlen : ¬ keys.length = 0 := by simpa using hkeysne
    have hscan := scanKeys_eq keys ⟨"", "", now⟩
    rw [hrole, hanon] at hscan
    simp only [List.getLastD_cons, List.getLastD_nil] at hscan
    simp [fetchProjectTokens, hlen, hscan, hs]

/-- Witness for C5 at concrete inputs: a listing with `anon` before
`service_role` still yields both secrets; an empty listing fails. -/
theorem fetch_tokens_contract_witness :
    (keysRequestParams "p").reveal = true ∧
    fetchProjectTokens 5 "p"
        (.ok ⟨200, "", some [⟨"anon", "anon-jwt"⟩, ⟨"service_role", "role-jwt"⟩]⟩) =
      .ok ⟨"role-jwt", "anon-jwt", 5⟩ ∧
    fetchProjectTokens 5 "p" (.ok ⟨200, "", some []⟩) =
      .error ("no API keys found for project " ++ "p") := by
  refine ⟨fetch_tokens_contract.1 "p", ?_, fetch_tokens_contract.2.2.1 5 "p" ""⟩
  exact fetch_tokens_contract.2.2.2.2 5 "p" "" "role-jwt" "anon-jwt"
    [⟨"anon", "anon-jwt"⟩, ⟨"service_role", "role-jwt"⟩] (by decide) (by decide) (by decide)

/-- C1 counterexample: the network read does not merge with the user's
declaration — with `db_allowed_cidrs` never declared and
`db_allowed_cidrs_v6` declared `[]`, a remote response carrying an empty
(non-nil) IPv4 list and no IPv6 field leaves state with a non-null IPv4 list
and a null IPv6 list, the opposite of what the claim predicts. -/
theorem readNetworkConfig_overwrites_declared_lists :
    (readNetworkConfig c1Resp c1State).1.network =
      some { dbAllowedCidrs := some [], dbAllowedCidrsV6 := none } ∧
    (readNetworkConfig c1Resp c1State).1.network ≠
      some { dbAllowedCidrs := none, dbAllowedCidrsV6 := some [] } := by
  exact ⟨rfl, by decide⟩

/-- C1 amended: after a successful network read, each CIDR list field in
state is an exact copy of the remote response's field — absent (null) iff
the remote omitted the field, an empty non-null list iff the remote returned
an empty list — regardless of whether the user declared the field or
declared it empty; the read reports no diagnostics. -/
theorem readNetworkConfig_mirrors_remote
    (state : SettingsResourceModel) (hr : HttpResp NetworkRestrictionsResponseJson)
    (js : NetworkRestrictionsResponseJson)
    (hstatus : ¬ (hr.statusCode = 404 ∨ hr.statusCode = 406))
    (hjson : hr.json200 = some js) :
    (readNetworkConfig (.ok hr) state).1.network =
      some { dbAllowedCidrs := js.config.dbAllowedCidrs
             dbAllowedCidrsV6 := js.config.dbAllowedCidrsV6 } ∧
    (readNetworkConfig (.ok hr) state).2 = [] := by
  obtain ⟨⟨v4, v6⟩⟩ := js
  simp only [readNetworkConfig]
  rw [if_neg hstatus, hjson]
  cases v4 <;> cases v6 <;> simp

/-- Witness for the amended C1 at a concrete input. -/
theorem readNetworkConfig_mirrors_remote_witness :
    (readNetworkConfig c1Resp c1State).1.network =
      some { dbAllowedCidrs := some [], dbAllowedCidrsV6 := none } ∧
    (readNetworkConfig c1Resp c1State).2 = [] := by
  exact readNetworkConfig_mirrors_remote c1State ⟨200, "", some ⟨⟨some [], none⟩⟩⟩
    ⟨⟨some [], none⟩⟩ (by decide) rfl

/-- C9 counterexample: the settings module's auth read treats a 404 from the
read endpoint as an error — it returns a non-empty diagnostic list — where
the claim says a 404 produces no diagnostics. -/
theorem settings_auth_read_errors_on_404 :
    settingsReadAuthConfig (.ok ⟨404, "not found", none⟩) none =
      (none, [⟨"Error Reading Auth Config", "Received status 404: not found"⟩]) ∧
    ([⟨"Error Reading Auth Config", "Received status 404: not found"⟩] :
      List Diagnostic) ≠ [] := by
  exact ⟨rfl, by simp⟩

/-- C9 amended: every sub-domain read helper of the main resource
implementation (api, database, network, auth) treats 404 and 406 as
"feature not configured": no diagnostics, state unchanged (so an absent
sub-document stays absent); any other status with no parsed 200 body yields
one error diagnostic quoting the status code and the response body verbatim.
The settings module's auth read is the exception: it reports an error
diagnostic (with status and body) for every status other than 200,
including 404 and 406. -/
theorem read_404_406_handling :
    (∀ (state : SettingsResourceModel) (hr : HttpResp PostgrestConfigResponse),
       hr.statusCode = 404 ∨ hr.statusCode = 406 →
       readApiConfig (.ok hr) state = (state, [])) ∧
    (∀ (state : SettingsResourceModel) (hr : HttpResp PostgresConfigResponse),
       hr.statusCode = 404 ∨ hr.statusCode = 406 →
       readDatabaseConfig (.ok hr) state = (state, [])) ∧
    (∀ (state : SettingsResourceModel) (hr : HttpResp NetworkRestrictionsResponseJson),
       hr.statusCode = 404 ∨ hr.statusCode = 406 →
       readNetworkConfig (.ok hr) state = (state, [])) ∧
    (∀ (state : SettingsResourceModel) (hr : HttpResp AuthConfigResponse),
       hr.statusCode = 404 ∨ hr.statusCode = 406 →
       readAuthConfig (.ok hr) state = (state, [])) ∧
    (∀ (state : SettingsResourceModel) (hr : HttpResp PostgrestConfigResponse),
       ¬ (hr.statusCode = 404 ∨ hr.statusCode = 406) →
       hr.json200 = none →
       readApiConfig (.ok hr) state = (state, [⟨"Client Error",
         "Unable to read api settings, got status " ++ toString hr.statusCode
           ++ ": " ++ hr.body⟩])) ∧
    (∀ (state : SettingsResourceModel) (hr : HttpResp PostgresConfigResponse),
       ¬ (hr.statusCode = 404 ∨ hr.statusCode = 406) →
       hr.json200 = none →
       readDatabaseConfig (.ok hr) state = (state, [⟨"Client Error",
         "Unable to read database settings, got status " ++ toString hr.statusCode
           ++ ": " ++ hr.body⟩])) ∧
    (∀ (state : SettingsResourceModel) (hr : HttpResp NetworkRestrictionsResponseJson),
       ¬ (hr.statusCode = 404 ∨ hr.statusCode = 406) →
       hr.json200 = none →
       readNetworkConfig (.ok hr) state = (state, [⟨"Client Error",
         "Unable to read network settings, got status " ++ toString hr.statusCode
           ++ ": " ++ hr.body⟩])) ∧
    (∀ (state : SettingsResourceModel) (hr : HttpResp AuthConfigResponse),
       ¬ (hr.statusCode = 404 ∨ hr.statusCode = 406) →
       hr.json200 = none →
       readAuthConfig (.ok hr) state = (state, [⟨"Client Error",
         "Unable to read auth settings, got status " ++ toString hr.statusCode
           ++ ": " ++ hr.body⟩])) ∧
    (∀ (auth : Option SettingsAuthSlice) (hr : HttpResp SettingsAuthReadResponse),
       hr.statusCode ≠ 200 →
       settingsReadAuthConfig (.ok hr) auth =
         (auth, [⟨"Error Reading Auth Config",
           "Received status " ++ toString hr.statusCode ++ ": " ++ hr.body⟩])) := by
  refine ⟨?_, ?_, ?_, ?_, ?_, ?_, ?_, ?_, ?_⟩
  · intro state hr h
    simp only [readApiConfig]
    rw [if_pos h]
  · intro state hr h
    simp only [readDatabaseConfig]
    rw [if_pos h]
  · intro state hr h
    simp only [readNetworkConfig]
    rw [if_pos h]
  · intro state hr h
    simp only [readAuthConfig]
    rw [if_pos h]
  · intro state hr h hj
    simp only [readApiConfig]
    rw [if_neg h, hj]
  · intro state hr h hj
    simp only [readDatabaseConfig]
    rw [if_neg h, hj]
  · intro state hr h hj
    simp only [readNetworkConfig]
    rw [if_neg h, hj]
  · intro state hr h hj
    simp only [readAuthConfig]
    rw [if_neg h, hj]
  · intro auth hr h
    simp only [settingsReadAuthConfig]
    rw [if_pos h]

/-- Witness for the amended C9 at concrete inputs. -/
theorem read_404_406_handling_witness :
    readApiConfig (.ok ⟨404, "", none⟩) emptyModel = (emptyModel, []) ∧
    emptyModel.api = none ∧
    settingsReadAuthConfig (.ok ⟨404, "nf", none⟩) none =
      (none, [⟨"Error Reading Auth Config", "Received status 404: nf"⟩]) := by
  refine ⟨read_404_406_handling.1 emptyModel ⟨404, "", none⟩ (Or.inl rfl), rfl, ?_⟩
  exact read_404_406_handling.2.2.2.2.2.2.2.2 none ⟨404, "nf", none⟩ (by decide)

/-- C2: a read never overwrites an explicitly set write-only field with an
absent remote value.  First conjunct: `readExternalProvider` always retains a
non-null planned provider secret (the remote never supplies one — the source
passes the literal `""` for it).  Second conjunct: a successful auth read
leaves the SMTP password and captcha secret untouched and routes every
provider through `readExternalProvider` applied to the planned provider
config, so each provider's planned secret is retained. -/
theorem read_retains_writeonly_secrets :
    (∀ (ec : ExternalProviderConfig) (enabled : Option Bool)
       (clientId : Option String) (addl url : Option String) (S : String),
       ec.secret = some S →
       ∃ q, readExternalProvider (some ec) enabled clientId "" addl url = some q ∧
         q.secret = some S) ∧
    (∀ (state : SettingsResourceModel) (a : AuthConfig)
       (hr : HttpResp AuthConfigResponse) (r : AuthConfigResponse),
       state.auth = some a →
       ¬ (hr.statusCode = 404 ∨ hr.statusCode = 406) →
       hr.json200 = some r →
       ∃ a2, (readAuthConfig (.ok hr) state).1.auth = some a2 ∧
         a2.smtpPass = a.smtpPass ∧
         a2.securityCaptchaSecret = a.securityCaptchaSecret ∧
         a2.externalApple = readExternalProvider a.externalApple
           r.externalAppleEnabled r.externalAppleClientId ""
           r.externalAppleAdditionalClientIds none ∧
         a2.externalAzure = readExternalProvider a.externalAzure
           r.externalAzureEnabled r.externalAzureClientId "" none
           r.externalAzureUrl ∧
         a2.externalBitbucket = readExternalProvider a.externalBitbucket
           r.externalBitbucketEnabled r.externalBitbucketClientId "" none none ∧
         a2.externalDiscord = readExternalProvider a.externalDiscord
           r.externalDiscordEnabled r.externalDiscordClientId "" none none ∧
         a2.externalFacebook = readExternalProvider a.externalFacebook
           r.externalFacebookEnabled r.externalFacebookClientId "" none none ∧
         a2.externalFigma = readExternalProvider a.externalFigma
           r.externalFigmaEnabled r.externalFigmaClientId "" none none ∧
         a2.externalGithub = readExternalProvider a.externalGithub
           r.externalGithubEnabled r.externalGithubClientId "" none none ∧
         a2.externalGitlab = readExternalProvider a.externalGitlab
           r.externalGitlabEnabled r.externalGitlabClientId "" none
           r.externalGitlabUrl ∧
         a2.externalGoogle = readExternalProvider a.externalGoogle
           r.externalGoogleEnabled r.externalGoogleClientId ""
           r.externalGoogleAdditionalClientIds none ∧
         a2.externalKakao = readExternalProvider a.externalKakao
           r.externalKakaoEnabled r.externalKakaoClientId "" none none ∧
         a2.externalKeycloak = readExternalProvider a.externalKeycloak
           r.externalKeycloakEnabled r.externalKeycloakClientId "" none
           r.externalKeycloakUrl ∧
         a2.externalLinkedinOidc = readExternalProvider a.externalLinkedinOidc
           r.externalLinkedinOidcEnabled r.externalLinkedinOidcClientId "" none none ∧
         a2.externalNotion = readExternalProvider a.externalNotion
           r.externalNotionEnabled r.externalNotionClientId "" none none ∧
         a2.externalSlack = readExternalProvider a.externalSlack
           r.externalSlackEnabled r.externalSlackClientId "" none none ∧
         a2.externalSlackOidc = readExternalProvider a.externalSlackOidc
           r.externalSlackOidcEnabled r.externalSlackOidcClientId "" none none ∧
         a2.externalSpotify = readExternalProvider a.externalSpotify
           r.externalSpotifyEnabled r.externalSpotifyClientId "" none none ∧
         a2.externalTwitch = readExternalProvider a.externalTwitch
           r.externalTwitchEnabled r.externalTwitchClientId "" none none ∧
         a2.externalTwitter = readExternalProvider a.externalTwitter
           r.externalTwitterEnabled r.externalTwitterClientId "" none none ∧
         a2.externalWorkos = readExternalProvider a.externalWorkos
           r.externalWorkosEnabled r.externalWorkosClientId "" none
           r.externalWorkosUrl ∧
         a2.externalZoom = readExternalProvider a.externalZoom
           r.externalZoomEnabled r.externalZoomClientId "" none none) := by
  constructor
  · intro ec enabled clientId addl url S hS
    simp only [readExternalProvider]
    rw [if_neg (by simp)]
    refine ⟨_, rfl, ?_⟩
    cases enabled <;> cases clientId <;> cases addl <;> cases url <;> simp [hS]
  · intro state a hr r ha hst hj
    simp only [readAuthConfig]
    rw [if_neg hst, hj, ha]
    refine ⟨_, rfl, ?_⟩
    repeat' apply And.intro
    all_goals rfl

/-- Witness for C2 at a concrete input: a declared GitHub secret "S2" and an
SMTP password "S" survive a read whose response omits every secret. -/
theorem read_retains_writeonly_secrets_witness :
    (∃ q, readExternalProvider (some c2Provider) (some true) (some "cid2") ""
        none none = some q ∧ q.secret = some "S2") ∧
    (∃ a2, (readAuthConfig c2Resp c2State).1.auth = some a2 ∧
      a2.smtpPass = some "S") := by
  constructor
  · exact read_retains_writeonly_secrets.1 c2Provider (some true) (some "cid2")
      none none "S2" rfl
  · obtain ⟨a2, h1, h2, _⟩ := read_retains_writeonly_secrets.2 c2State c2Auth
      c2Hr c2AuthResp rfl (by decide) rfl
    exact ⟨a2, h1, h2⟩

/-- C7 counterexample: the network update body is initialized with both CIDR
fields present as empty lists, so a plan that never declares either list
still sends both fields (as `[]`) instead of omitting them. -/
theorem network_body_includes_undeclared_lists :
    buildNetworkRestrictionsBody { dbAllowedCidrs := none, dbAllowedCidrsV6 := none } =
      .ok { dbAllowedCidrs := some [], dbAllowedCidrsV6 := some [] } ∧
    (some ([] : List String)) ≠ (none : Option (List String)) :=
  ⟨rfl, by simp⟩

/-- C7 amended: the database, api and auth update bodies omit (leave null)
every field the plan leaves null — including, for auth, every provider whose
config is absent from the plan — and the storage/pooler updates issue no
request at all; the network update is the exception: its request always
carries both CIDR list fields, non-null, even when the corresponding list was
never declared. -/
theorem update_bodies_omit_undeclared_fields :
    (∀ a : ApiConfig,
      (a.dbExtraSearchPath = none → (updateApiConfigBody a).dbExtraSearchPath = none) ∧
      (a.dbPool = none → (updateApiConfigBody a).dbPool = none) ∧
      (a.dbSchema = none → (updateApiConfigBody a).dbSchema = none) ∧
      (a.maxRows = none → (updateApiConfigBody a).maxRows = none)) ∧
    (∀ db : DatabaseConfig,
      (db.effectiveCacheSize = none → (updateDatabaseConfigBody db).effectiveCacheSize = none) ∧
      (db.logicalDecodingWorkMem = none → (updateDatabaseConfigBody db).logicalDecodingWorkMem = none) ∧
      (db.maintenanceWorkMem = none → (updateDatabaseConfigBody db).maintenanceWorkMem = none) ∧
      (db.maxConnections = none → (updateDatabaseConfigBody db).maxConnections = none) ∧
      (db.statementTimeout = none → (updateDatabaseConfigBody db).statementTimeout = none) ∧
      (db.sharedBuffers = none → (updateDatabaseConfigBody db).sharedBuffers = none) ∧
      (db.workMem = none → (updateDatabaseConfigBody db).workMem = none) ∧
      (db.restartDatabase = none → (updateDatabaseConfigBody db).restartDatabase = none)) ∧
    (∀ a : AuthConfig,
      (a.apiMaxRequestDuration = none → (updateAuthConfigBody a).apiMaxRequestDuration = none) ∧
      (a.dbMaxPoolSize = none → (updateAuthConfigBody a).dbMaxPoolSize = none) ∧
      (a.disableSignup = none → (updateAuthConfigBody a).disableSignup = none) ∧
      (a.externalAnonymousUsersEnabled = none →
        (updateAuthConfigBody a).externalAnonymousUsersEnabled = none) ∧
      (a.externalEmailEnabled = none → (updateAuthConfigBody a).externalEmailEnabled = none) ∧
      (a.siteUrl = none → (updateAuthConfigBody a).siteUrl = none) ∧
      (a.smtpHost = none → (updateAuthConfigBody a).smtpHost = none) ∧
      (a.smtpPort = none → (updateAuthConfigBody a).smtpPort = none) ∧
      (a.smtpUser = none → (updateAuthConfigBody a).smtpUser = none) ∧
      (a.smtpPass = none → (updateAuthConfigBody a).smtpPass = none) ∧
      (a.externalApple = none → (updateAuthConfigBody a).externalApple = emptyProviderBodyFields) ∧
      (a.externalAzure = none → (updateAuthConfigBody a).externalAzure = emptyProviderBodyFields) ∧
      (a.externalBitbucket = none → (updateAuthConfigBody a).externalBitbucket = emptyProviderBodyFields) ∧
      (a.externalDiscord = none → (updateAuthConfigBody a).externalDiscord = emptyProviderBodyFields) ∧
      (a.externalFacebook = none → (updateAuthConfigBody a).externalFacebook = emptyProviderBodyFields) ∧
      (a.externalFigma = none → (updateAuthConfigBody a).externalFigma = emptyProviderBodyFields) ∧
      (a.externalGithub = none → (updateAuthConfigBody a).externalGithub = emptyProviderBodyFields) ∧
      (a.externalGitlab = none → (updateAuthConfigBody a).externalGitlab = emptyProviderBodyFields) ∧
      (a.externalGoogle = none → (updateAuthConfigBody a).externalGoogle = emptyProviderBodyFields) ∧
      (a.externalKakao = none → (updateAuthConfigBody a).externalKakao = emptyProviderBodyFields) ∧
      (a.externalKeycloak = none → (updateAuthConfigBody a).externalKeycloak = emptyProviderBodyFields) ∧
      (a.externalLinkedinOidc = none → (updateAuthConfigBody a).externalLinkedinOidc = emptyProviderBodyFields) ∧
      (a.externalNotion = none → (updateAuthConfigBody a).externalNotion = emptyProviderBodyFields) ∧
      (a.externalSlack = none → (updateAuthConfigBody a).externalSlack = emptyProviderBodyFields) ∧
      (a.externalSlackOidc = none → (updateAuthConfigBody a).externalSlackOidc = emptyProviderBodyFields) ∧
      (a.externalSpotify = none → (updateAuthConfigBody a).externalSpotify = emptyProviderBodyFields) ∧
      (a.externalTwitch = none → (updateAuthConfigBody a).externalTwitch = emptyProviderBodyFields) ∧
      (a.externalTwitter = none → (updateAuthConfigBody a).externalTwitter = emptyProviderBodyFields) ∧
      (a.externalWorkos = none → (updateAuthConfigBody a).externalWorkos = emptyProviderBodyFields) ∧
      (a.externalZoom = none → (updateAuthConfigBody a).externalZoom = emptyProviderBodyFields)) ∧
    (∀ (net : NetworkConfig) (body : NetworkRestrictionsRequest),
      buildNetworkRestrictionsBody net = .ok body →
      body.dbAllowedCidrs ≠ none ∧ body.dbAllowedCidrsV6 ≠ none) := by
  refine ⟨?_, ?_, ?_, ?_⟩
  · intro a
    repeat' apply And.intro
    all_goals intro h
    all_goals simp [updateApiConfigBody, h]
  · intro db
    repeat' apply And.intro
    all_goals intro h
    all_goals simp [updateDatabaseConfigBody, h]
  · intro a
    repeat' apply And.intro
    all_goals intro h
    all_goals simp [updateAuthConfigBody, updateExternalProvider, h]
  · intro net body h
    unfold buildNetworkRestrictionsBody at h
    split at h
    · simp at h
    · split at h
      · simp at h
      · simp only [Except.ok.injEq] at h
        subst h
        exact ⟨by simp, by simp⟩

/-- Witness for the amended C7 at concrete inputs. -/
theorem update_bodies_omit_undeclared_fields_witness :
    (updateApiConfigBody emptyApiConfig).dbExtraSearchPath = none ∧
    (updateAuthConfigBody emptyAuthConfig).externalApple = emptyProviderBodyFields ∧
    ({ dbAllowedCidrs := some [], dbAllowedCidrsV6 := some [] } :
      NetworkRestrictionsRequest).dbAllowedCidrs ≠ none := by
  refine ⟨(update_bodies_omit_undeclared_fields.1 emptyApiConfig).1 rfl, ?_, ?_⟩
  · exact (update_bodies_omit_undeclared_fields.2.2.1
      emptyAuthConfig).2.2.2.2.2.2.2.2.2.2.1 rfl
  · exact (update_bodies_omit_undeclared_fields.2.2.2 ⟨none, none⟩
      ⟨some [], some []⟩ rfl).1

theorem cidrEntryValid_iff (c : String) :
    cidrEntryValid c = true ↔
      ∃ ip, parseCIDR c = some ip ∧ ip.isPrivate = false := by
  unfold cidrEntryValid
  cases h : parseCIDR c <;> simp [h]

/-- The v4 loop rejects the first unparsable entry with the Invalid CIDR
validation error, whatever follows it. -/
theorem processV4Cidrs_invalid (pre : List String) (c : String) (rest : List String)
    (hpre : ∀ x ∈ pre, cidrEntryValid x = true) (hc : parseCIDR c = none) :
    processV4Cidrs (pre ++ c :: rest) =
      .error ⟨"Validation Error", "Invalid CIDR: " ++ c⟩ := by
  induction pre with
  | nil => simp [processV4Cidrs, hc]
  | cons p ps ih =>
    obtain ⟨ip, hip, hpriv⟩ := (cidrEntryValid_iff p).mp (hpre p (by simp))
    have ih2 := ih (fun x hx => hpre x (by simp [hx]))
    simp [processV4Cidrs, hip, hpriv, ih2]

theorem processV6Cidrs_invalid (pre : List String) (c : String) (rest : List String)
    (hpre : ∀ x ∈ pre, cidrEntryValid x = true) (hc : parseCIDR c = none) :
    processV6Cidrs (pre ++ c :: rest) =
      .error ⟨"Validation Error", "Invalid CIDR: " ++ c⟩ := by
  induction pre with
  | nil => simp [processV6Cidrs, hc]
  | cons p ps ih =>
    obtain ⟨ip, hip, hpriv⟩ := (cidrEntryValid_iff p).mp (hpre p (by simp))
    have ih2 := ih (fun x hx => hpre x (by simp [hx]))
    simp [processV6Cidrs, hip, hpriv, ih2]

/-- The v4 loop rejects the first private entry with the Private IP
validation error. -/
theorem processV4Cidrs_private (pre : List String) (c : String) (rest : List String)
    (ip : IP) (hpre : ∀ x ∈ pre, cidrEntryValid x = true)
    (hc : parseCIDR c = some ip) (hpriv : ip.isPrivate = true) :
    processV4Cidrs (pre ++ c :: rest) =
      .error ⟨"Validation Error", "Private IP not allowed: " ++ c⟩ := by
  induction pre with
  | nil => simp [processV4Cidrs, hc, hpriv]
  | cons p ps ih =>
    obtain ⟨q, hq, hqpriv⟩ := (cidrEntryValid_iff p).mp (hpre p (by simp))
    have ih2 := ih (fun x hx => hpre x (by simp [hx]))
    simp [processV4Cidrs, hq, hqpriv, ih2]

theorem processV6Cidrs_private (pre : List String) (c : String) (rest : List String)
    (ip : IP) (hpre : ∀ x ∈ pre, cidrEntryValid x = true)
    (hc : parseCIDR c = some ip) (hpriv : ip.isPrivate = true) :
    processV6Cidrs (pre ++ c :: rest) =
      .error ⟨"Validation Error", "Private IP not allowed: " ++ c⟩ := by
  induction pre with
  | nil => simp [processV6Cidrs, hc, hpriv]
  | cons p ps ih =>
    obtain ⟨q, hq, hqpriv⟩ := (cidrEntryValid_iff p).mp (hpre p (by simp))
    have ih2 := ih (fun x hx => hpre x (by simp [hx]))
    simp [processV6Cidrs, hq, hqpriv, ih2]

/-- On an all-valid list the v4 loop keeps exactly the entries whose parsed
address is IPv4, in order. -/
theorem processV4Cidrs_ok (l : List String)
    (h : ∀ x ∈ l, cidrEntryValid x = true) :
    processV4Cidrs l = .ok (l.filter cidrEntryIsV4) := by
  induction l with
  | nil => rfl
  | cons p ps ih =>
    obtain ⟨ip, hip, hpriv⟩ := (cidrEntryValid_iff p).mp (h p (by simp))
    have ih2 := ih (fun x hx => h x (by simp [hx]))
    have his : cidrEntryIsV4 p = ip.to4.isSome := by
      unfold cidrEntryIsV4
      rw [hip]
    simp only [processV4Cidrs, hip, hpriv, ih2, List.filter_cons, his]
    cases hres : ip.to4 <;> simp [hres]

/-- On an all-valid list the v6 loop keeps exactly the entries whose parsed
address is not IPv4, in order. -/
theorem processV6Cidrs_ok (l : List String)
    (h : ∀ x ∈ l, cidrEntryValid x = true) :
    processV6Cidrs l = .ok (l.filter (fun c => !cidrEntryIsV4 c)) := by
  induction l with
  | nil => rfl
  | cons p ps ih =>
    obtain ⟨ip, hip, hpriv⟩ := (cidrEntryValid_iff p).mp (h p (by simp))
    have ih2 := ih (fun x hx => h x (by simp [hx]))
    have his : cidrEntryIsV4 p = ip.to4.isSome := by
      unfold cidrEntryIsV4
      rw [hip]
    simp only [processV6Cidrs, hip, hpriv, ih2, List.filter_cons, his]
    cases hres : ip.to4 <;> simp [hres]

/-- C6 counterexample: a valid public IPv6 entry placed in the declared IPv4
list passes validation but is routed into *neither* field of the outgoing
request — it is silently dropped, not moved to the IPv6 field as the claim
states. -/
theorem misplaced_family_entry_dropped :
    cidrEntryValid c6Entry = true ∧
    cidrEntryIsV4 c6Entry = false ∧
    buildNetworkRestrictionsBody
        { dbAllowedCidrs := some [c6Entry], dbAllowedCidrsV6 := some [] } =
      .ok { dbAllowedCidrs := some [], dbAllowedCidrsV6 := some [] } := by
  exact ⟨by decide, by decide, rfl⟩

/-- C6 amended: each declared CIDR entry is validated before the network
call — the first unparsable entry fails with `Validation Error: Invalid
CIDR`, the first private-range entry with `Validation Error: Private IP not
allowed`, and on a validation error no request is issued; on success the
outgoing IPv4 field holds the declared v4-list entries whose parsed family
is IPv4 and the IPv6 field the declared v6-list entries whose parsed family
is not IPv4 — an entry declared in the list of the other family is dropped
from the request, not rerouted. -/
theorem network_validation_and_partition :
    (∀ (pre : List String) (c : String) (rest : List String),
       (∀ x ∈ pre, cidrEntryValid x = true) → parseCIDR c = none →
       processV4Cidrs (pre ++ c :: rest) =
         .error ⟨"Validation Error", "Invalid CIDR: " ++ c⟩ ∧
       processV6Cidrs (pre ++ c :: rest) =
         .error ⟨"Validation Error", "Invalid CIDR: " ++ c⟩) ∧
    (∀ (pre : List String) (c : String) (rest : List String) (ip : IP),
       (∀ x ∈ pre, cidrEntryValid x = true) → parseCIDR c = some ip →
       ip.isPrivate = true →
       processV4Cidrs (pre ++ c :: rest) =
         .error ⟨"Validation Error", "Private IP not allowed: " ++ c⟩ ∧
       processV6Cidrs (pre ++ c :: rest) =
         .error ⟨"Validation Error", "Private IP not allowed: " ++ c⟩) ∧
    (∀ (net : NetworkConfig) (resp : Except String (Http201Resp Unit)) (d : Diagnostic),
       buildNetworkRestrictionsBody net = .error d →
       updateNetworkConfig resp net = (none, [d])) ∧
    (∀ (net : NetworkConfig) (v4l v6l : List String),
       net.dbAllowedCidrs = some v4l →
       net.dbAllowedCidrsV6 = some v6l →
       (∀ x ∈ v4l, cidrEntryValid x = true) →
       (∀ x ∈ v6l, cidrEntryValid x = true) →
       buildNetworkRestrictionsBody net =
         .ok { dbAllowedCidrs := some (v4l.filter cidrEntryIsV4)
               dbAllowedCidrsV6 := some (v6l.filter (fun c => !cidrEntryIsV4 c)) }) := by
  refine ⟨?_, ?_, ?_, ?_⟩
  · intro pre c rest hpre hc
    exact ⟨processV4Cidrs_invalid pre c rest hpre hc,
      processV6Cidrs_invalid pre c rest hpre hc⟩
  · intro pre c rest ip hpre hc hpriv
    exact ⟨processV4Cidrs_private pre c rest ip hpre hc hpriv,
      processV6Cidrs_private pre c rest ip hpre hc hpriv⟩
  · intro net resp d h
    simp [updateNetworkConfig, h]
  · intro net v4l v6l hv4 hv6 h4 h6
    have e4 := processV4Cidrs_ok v4l h4
    have e6 := processV6Cidrs_ok v6l h6
    simp [buildNetworkRestrictionsBody, hv4, hv6, e4, e6]

/-- Witness for the amended C6 at concrete inputs: an unparsable entry and a
private entry are rejected, a rejected plan issues no request, and a valid
mixed pair partitions into the two fields. -/
theorem network_validation_and_partition_witness :
    processV4Cidrs ["bad-cidr"] =
      .error ⟨"Validation Error", "Invalid CIDR: bad-cidr"⟩ ∧
    processV4Cidrs ["10.0.0.0/8"] =
      .error ⟨"Validation Error", "Private IP not allowed: 10.0.0.0/8"⟩ ∧
    updateNetworkConfig http201Unit
        { dbAllowedCidrs := some ["bad-cidr"], dbAllowedCidrsV6 := none } =
      (none, [⟨"Validation Error", "Invalid CIDR: bad-cidr"⟩]) ∧
    buildNetworkRestrictionsBody
        { dbAllowedCidrs := some ["8.8.8.0/24"]
          dbAllowedCidrsV6 := some ["2001:4860::/32"] } =
      .ok { dbAllowedCidrs := some ["8.8.8.0/24"]
            dbAllowedCidrsV6 := some ["2001:4860::/32"] } := by
  refine ⟨?_, ?_, ?_, ?_⟩
  · exact (network_validation_and_partition.1 [] "bad-cidr" []
      (by simp) (by decide)).1
  · exact (network_validation_and_partition.2.1 [] "10.0.0.0/8" []
      (IP.v4 10 0 0 0) (by simp) (by decide) (by decide)).1
  · exact network_validation_and_partition.2.2.1
      { dbAllowedCidrs := some ["bad-cidr"], dbAllowedCidrsV6 := none }
      http201Unit ⟨"Validation Error", "Invalid CIDR: bad-cidr"⟩ rfl
  · have h := network_validation_and_partition.2.2.2
      { dbAllowedCidrs := some ["8.8.8.0/24"], dbAllowedCidrsV6 := some ["2001:4860::/32"] }
      ["8.8.8.0/24"] ["2001:4860::/32"] rfl rfl (by decide) (by decide)
    have h2 : (⟨some (["8.8.8.0/24"].filter cidrEntryIsV4),
        some (["2001:4860::/32"].filter (fun c => !cidrEntryIsV4 c))⟩ :
          NetworkRestrictionsRequest) =
        ⟨some ["8.8.8.0/24"], some ["2001:4860::/32"]⟩ := by decide
    exact h2 ▸ h

/-- C8: characterization of the aggregate Create/Update dispatch.  The
request list is exactly the concatenation, in source order, of one request
per *declared* sub-domain (none for an undeclared one, and none for a
network sub-domain whose validation failed; the storage and pooler updates
are placeholders issuing no request).  The diagnostics are the
concatenation of each declared sub-domain's own diagnostics — each term
depends only on that sub-domain's plan and response, so a failure in one
sub-domain never prevents the others from being attempted.  State is
written iff no diagnostic was produced. -/
theorem update_dispatch_isolation (remote : UpdateRemote) (plan : SettingsResourceModel) :
    (settingsUpdate remote plan).requests =
      (match plan.database with
        | some db => [SubRequest.database (updateDatabaseConfigBody db)]
        | none => []) ++
      (match plan.network with
        | some net =>
          match (updateNetworkConfig remote.network net).1 with
          | some b => [SubRequest.network b]
          | none => []
        | none => []) ++
      (match plan.api with
        | some a => [SubRequest.api (updateApiConfigBody a)]
        | none => []) ++
      (match plan.auth with
        | some a => [SubRequest.auth (updateAuthConfigBody a)]
        | none => []) ∧
    (settingsUpdate remote plan).diagnostics =
      (match plan.database with
        | some db => (updateDatabaseConfig remote.database db).2
        | none => []) ++
      (match plan.network with
        | some net => (updateNetworkConfig remote.network net).2
        | none => []) ++
      (match plan.api with
        | some a => (updateApiConfig remote.api a).2
        | none => []) ++
      (match plan.auth with
        | some a => (updateAuthConfig remote.auth a).2
        | none => []) ∧
    ((settingsUpdate remote plan).diagnostics = [] →
      (settingsUpdate remote plan).written = some plan) ∧
    ((settingsUpdate remote plan).diagnostics ≠ [] →
      (settingsUpdate remote plan).written = none) := by
  have hw : (settingsUpdate remote plan).written =
      (if (settingsUpdate remote plan).diagnostics.isEmpty then some plan
        else none) := rfl
  refine ⟨?_, ?_, fun h => ?_, fun h => ?_⟩
  · obtain ⟨pr, db, po, net, st, au, ap, id⟩ := plan
    cases db <;> cases net <;> cases ap <;> cases au <;> rfl
  · obtain ⟨pr, db, po, net, st, au, ap, id⟩ := plan
    cases db <;> cases net <;> cases ap <;> cases au <;> rfl
  · rw [hw, h]
    rfl
  · rw [hw]
    cases hd : (settingsUpdate remote plan).diagnostics
    · exact absurd hd h
    · rfl

/-- Witness for C8 at a concrete input: api and auth are declared, auth's
update returns a 500 with no parsed body, api's succeeds — the aggregate
reports exactly the auth diagnostic, both sub-domains were attempted (both
requests issued), and state is not written. -/
theorem update_dispatch_isolation_witness :
    (settingsUpdate c8Remote c8Plan).requests =
      [SubRequest.api (updateApiConfigBody emptyApiConfig),
        SubRequest.auth (updateAuthConfigBody emptyAuthConfig)] ∧
    (settingsUpdate c8Remote c8Plan).diagnostics =
      [⟨"Client Error", "Unable to update auth settings, got status 500: boom"⟩] ∧
    (settingsUpdate c8Remote c8Plan).written = none := by
  obtain ⟨hreq, hdiag, hsome, hnone⟩ := update_dispatch_isolation c8Remote c8Plan
  have hd2 : (settingsUpdate c8Remote c8Plan).diagnostics =
      [⟨"Client Error", "Unable to update auth settings, got status 500: boom"⟩] :=
    hdiag.trans (by rfl)
  exact ⟨hreq.trans (by rfl), hd2, hnone (by rw [hd2]; simp)⟩

end Supabase
